import Mathlib

/-
  Verification development for the mvp_postback_helper repository.

  Shallow embedding of the postback ingestion pipeline:
  - src/db.py        : users / transactions tables and the DataBase methods
  - src/postback_router.py : the per-kind postback handlers
  - src/api_request.py     : the retrying HTTP client

  Modelling conventions:
  - amounts (Python floats used for money) are embedded as ℚ; the properties
    checked here only use order and equality of amounts;
  - timestamps are embedded as integers (seconds); NOW() is an explicit
    `now` parameter threaded through each handler;
  - SQL tables are lists of rows scanned in order (fetchone = first match);
  - every SQL statement in the source runs on a connection with
    autocommit = True (DataBase.get_connection), so each statement is its
    own committed step; state passing mirrors that statement order;
  - the raw_data JSON snapshot column is not modelled (no checked property
    reads it back);
  - outbound HTTP sends are external: each handler takes a DispatchEnv
    recording what the downstream call would return.
-/

namespace MvpPostback

/-- One row of the `users` table (the columns the pipeline reads/writes). -/
structure User where
  id : ℤ
  subscriber_id : Option String
  clickid_chatterfry : Option String
  trader_id : Option String
  sub_3 : Option String
  revenue : Option ℚ
  ftm_time : Option ℤ
  reg : Bool
  reg_time : Option ℤ
  dep : Bool
  dep_time : Option ℤ
  dep_sum : Option ℚ
  redep : Bool
  redep_time : Option ℤ
  redep_sum : Option ℚ
deriving Repr, DecidableEq

/-- A user row freshly inserted by create_user_if_not_exists (src/db.py:212):
all funnel fields at their column defaults. -/
def blankUser (id : ℤ) (subscriber_id trader_id clickid : Option String) : User :=
  ⟨id, subscriber_id, clickid, trader_id, none, none, none, false, none,
    false, none, none, false, none, none⟩

/-- One row of the append-only `transactions` table. -/
structure Txn where
  id : ℤ
  user_id : ℤ
  action : String
  sum : Option ℚ
  commission : Option ℚ
  created_at : ℤ
deriving Repr, DecidableEq

/-- The persisted state: users table, transactions table, next serial id. -/
structure DB where
  users : List User
  transactions : List Txn
  next_txn_id : ℤ
deriving Repr, DecidableEq

/-- Python truthiness of an optional string (None and "" are falsy). -/
def truthyStr : Option String → Bool
  | none => false
  | some s => !(s = "")

/-- Python truthiness of an optional integer (None and 0 are falsy). -/
def truthyInt : Option ℤ → Bool
  | none => false
  | some n => !(n = 0)

/-- A raw inbound query parameter carrying a number: absent covers both a
missing parameter and an empty string, val is a value Python's int()/float()
accepts, malformed is a string they raise on. -/
inductive RawNum (α : Type)
  | absent
  | val (a : α)
  | malformed
deriving Repr, DecidableEq

/-- src/postback_router.py:98 parse_id_parameter. -/
def parse_id_parameter : RawNum ℤ → Option ℤ
  | .absent => none
  | .val n => if n > 0 then some n else none
  | .malformed => none

/-- src/postback_router.py:125 DEFAULT_SUM. -/
def DEFAULT_SUM : ℚ := 59

/-- src/postback_router.py:120 parse_sum_parameter: non-numeric or ≤ 0
values are replaced by DEFAULT_SUM. -/
def parse_sum_parameter : RawNum ℚ → ℚ
  | .absent => DEFAULT_SUM
  | .val q => if q ≤ 0 then DEFAULT_SUM else q
  | .malformed => DEFAULT_SUM

/-- src/postback_router.py:140 parse_revenue_parameter: zero and negative
values are preserved; absent or malformed gives None. -/
def parse_revenue_parameter : RawNum ℚ → Option ℚ
  | .absent => none
  | .val q => some q
  | .malformed => none

/-- src/postback_router.py:158 parse_commission_parameter. -/
def parse_commission_parameter : RawNum ℚ → Option ℚ
  | .absent => none
  | .val q => if q ≥ 0 then some q else none
  | .malformed => none

/-- Python str.strip(): drop whitespace at both ends, evaluated on the
character list. -/
def py_strip (s : String) : String :=
  ⟨((s.data.dropWhile Char.isWhitespace).reverse.dropWhile Char.isWhitespace).reverse⟩

/-- Python str.lower(), evaluated on the character list. -/
def py_lower (s : String) : String :=
  ⟨s.data.map Char.toLower⟩

/-- src/postback_router.py:69 PLACEHOLDER_PATTERN: an unresolved template
variable, i.e. an opening brace, one or more non-closing-brace characters,
then a closing brace. -/
def is_unresolved_placeholder (s : String) : Bool :=
  decide (s.data.length ≥ 3) && decide (s.data.head? = some (Char.ofNat 123)) &&
    decide (s.data.getLast? = some (Char.ofNat 125)) &&
    ((s.data.drop 1).dropLast.all fun c => !(c = Char.ofNat 125))

/-- src/postback_router.py:72 sanitize_identifier. -/
def sanitize_identifier (value : Option String) (param_name : String) : Option String :=
  match value with
  | none => none
  | some v =>
    if v = "" then none
    else
      let w := py_strip v
      if w = "" then none
      else if is_unresolved_placeholder w then none
      else if py_lower w = py_lower param_name then none
      else some w

-- ==========================================================================
-- DataBase query helpers (each mirrors one SELECT in src/db.py)
-- ==========================================================================

/-- SELECT ... FROM users WHERE id = %s (fetchone). -/
def selectUserById (db : DB) (uid : ℤ) : Option User :=
  db.users.find? fun u => decide (u.id = uid)

/-- SELECT ... FROM users WHERE subscriber_id = %s (fetchone). -/
def selectUserBySubscriber (db : DB) (s : String) : Option User :=
  db.users.find? fun u => decide (u.subscriber_id = some s)

/-- SELECT ... FROM users WHERE clickid_chatterfry = %s (fetchone). -/
def selectUserByClickid (db : DB) (c : String) : Option User :=
  db.users.find? fun u => decide (u.clickid_chatterfry = some c)

/-- SELECT ... FROM users WHERE trader_id = %s (fetchone). -/
def selectUserByTrader (db : DB) (t : String) : Option User :=
  db.users.find? fun u => decide (u.trader_id = some t)

/-- Result of find_user_by_any_identifier. -/
structure FoundUser where
  user_id : ℤ
  found_by : String
deriving Repr, DecidableEq

/-- src/db.py:80 DataBase.find_user_by_any_identifier: tries
user_id, then subscriber_id, then clickid_chatterfry, then trader_id,
returning on the first hit; falsy (absent / zero / empty) identifiers are
skipped. -/
def find_user_by_any_identifier (db : DB) (user_id : Option ℤ)
    (subscriber_id clickid_chatterfry trader_id : Option String) : Option FoundUser :=
  let r1 : Option FoundUser :=
    if truthyInt user_id then
      (selectUserById db (user_id.getD 0)).map fun u => ⟨u.id, "user_id"⟩
    else none
  match r1 with
  | some r => some r
  | none =>
    let r2 : Option FoundUser :=
      if truthyStr subscriber_id then
        (selectUserBySubscriber db (subscriber_id.getD "")).map fun u => ⟨u.id, "subscriber_id"⟩
      else none
    match r2 with
    | some r => some r
    | none =>
      let r3 : Option FoundUser :=
        if truthyStr clickid_chatterfry then
          (selectUserByClickid db (clickid_chatterfry.getD "")).map fun u => ⟨u.id, "clickid_chatterfry"⟩
        else none
      match r3 with
      | some r => some r
      | none =>
        if truthyStr trader_id then
          (selectUserByTrader db (trader_id.getD "")).map fun u => ⟨u.id, "trader_id"⟩
        else none

-- ==========================================================================
-- DataBase mutation and aggregate methods (src/db.py)
-- ==========================================================================

/-- Result of create_user_if_not_exists / ensure_user_exists. -/
structure EnsureResult where
  success : Bool
  user_id : Option ℤ
  created : Bool
  existed : Bool
deriving Repr, DecidableEq

/-- src/db.py:175 DataBase.create_user_if_not_exists. -/
def create_user_if_not_exists (db : DB) (user_id : ℤ)
    (subscriber_id trader_id clickid_chatterfry : Option String) : DB × EnsureResult :=
  match selectUserById db user_id with
  | some _ => (db, ⟨true, some user_id, false, true⟩)
  | none =>
    ({ db with users := db.users ++ [blankUser user_id subscriber_id trader_id clickid_chatterfry] },
      ⟨true, some user_id, true, false⟩)

/-- src/db.py:248 DataBase.ensure_user_exists: find by any identifier,
create with user_id if nothing matched, fail if no user_id was given. -/
def ensure_user_exists (db : DB) (user_id : Option ℤ)
    (subscriber_id trader_id clickid_chatterfry : Option String) : DB × EnsureResult :=
  match find_user_by_any_identifier db user_id subscriber_id clickid_chatterfry trader_id with
  | some f => (db, ⟨true, some f.user_id, false, true⟩)
  | none =>
    if truthyInt user_id then
      create_user_if_not_exists db (user_id.getD 0) subscriber_id trader_id clickid_chatterfry
    else
      (db, ⟨false, none, false, false⟩)

/-- src/db.py:304 DataBase.update_user_clickid: set-once (only writes the
column when it is NULL or empty). -/
def update_user_clickid (db : DB) (user_id : ℤ) (clickid : String) : DB :=
  { db with users := db.users.map fun u =>
      if u.id = user_id ∧ (u.clickid_chatterfry = none ∨ u.clickid_chatterfry = some "") then
        { u with clickid_chatterfry := some clickid }
      else u }

/-- src/db.py:739 DataBase.update_user_trader_id: unconditional overwrite;
the Bool is rowcount > 0. -/
def update_user_trader_id (db : DB) (user_id : ℤ) (trader_id : String) : DB × Bool :=
  ({ db with users := db.users.map fun u =>
      if u.id = user_id then { u with trader_id := some trader_id } else u },
    db.users.any fun u => decide (u.id = user_id))

/-- src/db.py:763 DataBase.get_user_trader_id (`if result and result[0]`
treats an empty string like NULL). -/
def get_user_trader_id (db : DB) (user_id : ℤ) : Option String :=
  match selectUserById db user_id with
  | some u =>
    match u.trader_id with
    | some t => if t = "" then none else some t
    | none => none
  | none => none

/-- src/db.py:355 DataBase.get_user_clickid. -/
def get_user_clickid (db : DB) (user_id : ℤ) : Option String :=
  match selectUserById db user_id with
  | some u =>
    match u.clickid_chatterfry with
    | some c => if c = "" then none else some c
    | none => none
  | none => none

/-- src/db.py:788 DataBase.get_user_sub_id (reads users.sub_3). -/
def get_user_sub_id (db : DB) (user_id : ℤ) : Option String :=
  match selectUserById db user_id with
  | some u =>
    match u.sub_3 with
    | some s => if s = "" then none else some s
    | none => none
  | none => none

/-- src/db.py:1477 DataBase.get_user_revenue (`result[0] is not None`, so a
stored zero is returned as zero). -/
def get_user_revenue (db : DB) (user_id : ℤ) : Option ℚ :=
  match selectUserById db user_id with
  | some u => u.revenue
  | none => none

/-- src/db.py:1436 DataBase.update_user_revenue: overwrite, not accumulate;
the Bool is whether the UPDATE ... RETURNING matched a row. -/
def update_user_revenue (db : DB) (user_id : ℤ) (revenue : ℚ) : DB × Bool :=
  ({ db with users := db.users.map fun u =>
      if u.id = user_id then { u with revenue := some revenue } else u },
    db.users.any fun u => decide (u.id = user_id))

/-- Result of create_transaction. -/
structure TxnResult where
  success : Bool
  transaction_id : Option ℤ
deriving Repr, DecidableEq

/-- src/db.py:380 DataBase.create_transaction: INSERT INTO transactions
RETURNING id (the raw_data JSON snapshot is not modelled). -/
def create_transaction (db : DB) (user_id : ℤ) (action : String)
    (sum_amount commission : Option ℚ) (now : ℤ) : DB × TxnResult :=
  (⟨db.users,
    db.transactions ++ [⟨db.next_txn_id, user_id, action, sum_amount, commission, now⟩],
    db.next_txn_id + 1⟩,
   ⟨true, some db.next_txn_id⟩)

/-- The per-kind users-row mutation of src/db.py:430 update_user_event. -/
def apply_user_event (u : User) (action : String) (sum_amount : Option ℚ) (now : ℤ) : User :=
  if action = "ftm" then { u with ftm_time := some now }
  else if action = "reg" then { u with reg := true, reg_time := some now }
  else if action = "dep" then { u with dep := true, dep_time := some now, dep_sum := sum_amount }
  else if action = "redep" then { u with redep := true, redep_time := some now, redep_sum := sum_amount }
  else u

/-- Result of update_user_event / process_postback. -/
structure UpdateResult where
  success : Bool
  error : Option String
deriving Repr, DecidableEq

/-- src/db.py:430 DataBase.update_user_event: for the four main kinds an
UPDATE on the user row (rowcount = 0 reports "User not found"); any other
kind returns success without touching users ("Custom action, only
transaction created"). -/
def update_user_event (db : DB) (user_id : ℤ) (action : String)
    (sum_amount : Option ℚ) (now : ℤ) : DB × UpdateResult :=
  if action = "ftm" ∨ action = "reg" ∨ action = "dep" ∨ action = "redep" then
    let db1 : DB :=
      { db with users := db.users.map fun u =>
          if u.id = user_id then apply_user_event u action sum_amount now else u }
    if db.users.any fun u => decide (u.id = user_id) then
      (db1, ⟨true, none⟩)
    else
      (db1, ⟨false, some "User not found"⟩)
  else
    (db, ⟨true, none⟩)

/-- Result of process_postback. -/
structure ProcessResult where
  success : Bool
  transaction_id : Option ℤ
  user_updated : Option Bool
deriving Repr, DecidableEq

/-- src/db.py:483 DataBase.process_postback: create the transaction row,
then update the user row; two separate auto-committed statements. Note the
returned success is True whenever the insert succeeded, regardless of
whether the user row still existed. -/
def process_postback (db : DB) (user_id : ℤ) (action : String)
    (sum_amount commission : Option ℚ) (now : ℤ) : DB × ProcessResult :=
  let step1 := create_transaction db user_id action sum_amount commission now
  if step1.2.success then
    let step2 := update_user_event step1.1 user_id action sum_amount now
    (step2.1, ⟨true, step1.2.transaction_id, some step2.2.success⟩)
  else
    (step1.1, ⟨false, none, none⟩)

/-- src/db.py:531 DataBase.get_user_deposits_count: COUNT(*) of the user's
dep and redep transactions. -/
def get_user_deposits_count (db : DB) (user_id : ℤ) : ℕ :=
  db.transactions.countP fun t =>
    decide (t.user_id = user_id) && (decide (t.action = "dep") || decide (t.action = "redep"))

/-- src/db.py:554 DataBase.get_user_total_deposits_sum. -/
def get_user_total_deposits_sum (db : DB) (user_id : ℤ) : ℚ :=
  (db.transactions.filterMap fun t =>
    if decide (t.user_id = user_id) && (decide (t.action = "dep") || decide (t.action = "redep")) then
      t.sum
    else none).sum

/-- The COUNT(*) query of src/db.py:1276 check_duplicate_transaction: rows
with the same user and action (and, when an amount was given, the same
amount) strictly inside the trailing window. -/
def duplicate_query_count (txns : List Txn) (now : ℤ) (user_id : ℤ) (action : String)
    (sum_amount : Option ℚ) (time_window_seconds : ℤ) : ℕ :=
  match sum_amount with
  | some s =>
    txns.countP fun t =>
      decide (t.user_id = user_id) && decide (t.action = action) &&
        decide (t.sum = some s) && decide (t.created_at > now - time_window_seconds)
  | none =>
    txns.countP fun t =>
      decide (t.user_id = user_id) && decide (t.action = action) &&
        decide (t.created_at > now - time_window_seconds)

/-- src/db.py:1253 DataBase.check_duplicate_transaction: True when the
window query counts at least one row; any exception from the query is
swallowed and reported as "no duplicate" (src/db.py:1300). -/
def check_duplicate_transaction (queryResult : Except String ℕ) : Bool :=
  match queryResult with
  | .ok count => decide (count > 0)
  | .error _ => false

/-- Wraps a query result in the fallible connection layer: a faulty
connection surfaces as a raised exception. -/
def runQuery (fault : Bool) (n : ℕ) : Except String ℕ :=
  if fault then .error "connection error" else .ok n

-- ==========================================================================
-- Router helpers (src/postback_router.py)
-- ==========================================================================

/-- src/postback_router.py:183 ensure_user_and_update_clickid: ensure the
user exists; when it already existed, backfill clickid (set-once) and
overwrite trader_id when it changed. -/
def ensure_user_and_update_clickid (db : DB) (user_id : Option ℤ)
    (subscriber_id trader_id clickid : Option String) : DB × EnsureResult :=
  let step := ensure_user_exists db user_id subscriber_id trader_id clickid
  if step.2.success then
    let actual := step.2.user_id.getD (user_id.getD 0)
    if step.2.existed then
      let db2 :=
        if truthyStr clickid then update_user_clickid step.1 actual (clickid.getD "")
        else step.1
      let db3 :=
        if truthyStr trader_id then
          if get_user_trader_id db2 actual = trader_id then db2
          else (update_user_trader_id db2 actual (trader_id.getD "")).1
        else db2
      (db3, step.2)
    else (step.1, step.2)
  else step

/-- Result of update_trader_id_if_needed. -/
structure TraderUpdateInfo where
  updated : Bool
  old_trader_id : Option String
deriving Repr, DecidableEq

/-- src/postback_router.py:252 update_trader_id_if_needed. -/
def update_trader_id_if_needed (db : DB) (user_id : ℤ) (trader_id : Option String) :
    DB × TraderUpdateInfo :=
  if truthyStr trader_id then
    let old := get_user_trader_id db user_id
    if old = trader_id then (db, ⟨false, none⟩)
    else
      let upd := update_user_trader_id db user_id (trader_id.getD "")
      if upd.2 then (upd.1, ⟨true, old⟩) else (upd.1, ⟨false, none⟩)
  else (db, ⟨false, none⟩)

/-- What one downstream send returns to the handler (the dict built by
src/api_request.py fetch_with_retry, restricted to the fields the
responses read). -/
structure PBResult where
  ok : Bool
  text : String
deriving Repr, DecidableEq

/-- The fallback dict send_postbacks_parallel builds when a gathered
coroutine raised (src/postback_router.py:314). -/
def parallel_fallback (e : String) : PBResult := ⟨false, e⟩

/-- src/postback_router.py:279 send_postbacks_parallel: drop the None
coroutines, run the rest as one gather with return_exceptions=True, and
convert a raised exception into the fallback dict. A coroutine outcome is
embedded as Except: ok is the dict the send returned, error is a raised
exception. -/
def send_postbacks_parallel (named_coros : List (String × Option (Except String PBResult))) :
    List (String × PBResult) :=
  let active := named_coros.filterMap fun p => p.2.map fun c => (p.1, c)
  active.map fun p =>
    match p.2 with
    | .ok r => (p.1, r)
    | .error e => (p.1, parallel_fallback e)

/-- The per-item conversion send_postbacks_parallel applies to one gathered
outcome. -/
def settleOne : Except String PBResult → PBResult
  | .ok r => r
  | .error e => parallel_fallback e

/-- The outcomes the external trackers would hand back during one request:
gathered coroutine outcomes for the parallel sends (an error is a raised
exception, caught by send_postbacks_parallel) and plain results for the
directly awaited sends. -/
structure DispatchEnv where
  keitaro : Except String PBResult
  chatterfy : Except String PBResult
  keitaro_direct : PBResult
  chatterfy_direct : PBResult
deriving Repr

/-- State after the shared find-or-create-and-backfill prefix of the
dep / redep / withdraw handlers. -/
structure ResolveOut where
  db : DB
  actual : Option ℤ
  created : Bool
deriving Repr, DecidableEq

/-- The user resolution and identifier backfill shared verbatim by the
dep (src/postback_router.py:672-707), redep (898-933) and withdraw
(1121-1156) handlers: find by any identifier; if nothing matched and an id
was supplied, create; then backfill clickid and, for a pre-existing user,
trader_id. Identifier arguments are the already parsed/sanitized values. -/
def deposit_prepared (db : DB) (id : Option ℤ)
    (subscriber_id clickid trader_id : Option String) : ResolveOut :=
  let found := find_user_by_any_identifier db id subscriber_id clickid trader_id
  let r1 : ResolveOut :=
    match found with
    | some f => ⟨db, some f.user_id, false⟩
    | none =>
      if truthyInt id then
        let er := ensure_user_and_update_clickid db id subscriber_id trader_id clickid
        if er.2.success then ⟨er.1, id, er.2.created⟩ else ⟨er.1, none, false⟩
      else ⟨db, none, false⟩
  match r1.actual with
  | none => r1
  | some actual =>
    let db2 :=
      if truthyStr clickid then update_user_clickid r1.db actual (clickid.getD "")
      else r1.db
    if truthyStr trader_id && !r1.created then
      ⟨(update_trader_id_if_needed db2 actual trader_id).1, some actual, r1.created⟩
    else ⟨db2, some actual, r1.created⟩

/-- The user resolution of the revenue handler
(src/postback_router.py:1488-1522): trader_id is tried first on its own;
only if it missed are id / subscriber_id / clickid consulted; creation by
id comes last. -/
def revenue_prepared (db : DB) (id : Option ℤ)
    (subscriber_id clickid trader_id : Option String) : ResolveOut :=
  let byTrader : Option FoundUser :=
    if truthyStr trader_id then
      find_user_by_any_identifier db none none none trader_id
    else none
  let rest : Option FoundUser :=
    match byTrader with
    | some f => some f
    | none => find_user_by_any_identifier db id subscriber_id clickid none
  let r1 : ResolveOut :=
    match rest with
    | some f => ⟨db, some f.user_id, false⟩
    | none =>
      if truthyInt id then
        let er := ensure_user_and_update_clickid db id subscriber_id trader_id clickid
        if er.2.success then ⟨er.1, id, er.2.created⟩ else ⟨er.1, none, false⟩
      else ⟨db, none, false⟩
  match r1.actual with
  | none => r1
  | some actual =>
    let db2 :=
      if truthyStr clickid then update_user_clickid r1.db actual (clickid.getD "")
      else r1.db
    if truthyStr trader_id && !r1.created then
      ⟨(update_trader_id_if_needed db2 actual trader_id).1, some actual, r1.created⟩
    else ⟨db2, some actual, r1.created⟩

-- ==========================================================================
-- Handler cores (the database-effecting part of each endpoint, ending in
-- the data the response is rendered from)
-- ==========================================================================

/-- Everything a handler computed before rendering its response: the final
database plus the fields the response is built from. Unused fields stay at
their neutral value for a given endpoint. -/
structure CoreOut where
  db : DB
  status : String
  user_id : Option ℤ
  message : Option String
  tid : Option ℕ
  sum_value : Option ℚ
  transaction_id : Option ℤ
  subid : Option String
  user_clickid : Option String
  previous_revenue : Option ℚ
  revenue_changed : Bool
deriving Repr, DecidableEq

/-- An error outcome: status "error" with a message, nothing else set. -/
def coreErr (db : DB) (msg : String) : CoreOut :=
  ⟨db, "error", none, some msg, none, none, none, none, none, none, false⟩

/-- Raw query parameters of /postback/dep, /postback/redep and
/postback/withdraw (withdraw ignores commission). -/
structure DepReq where
  id : RawNum ℤ
  sum : RawNum ℚ
  commission : RawNum ℚ
  clickid : Option String
  subscriber_id : Option String
  trader_id : Option String
deriving Repr, DecidableEq

/-- Raw query parameters of /postback/ftm and /postback/reg (id is a
mandatory integer on these routes). -/
structure FtmReq where
  id : ℤ
  clickid : Option String
  subscriber_id : Option String
  trader_id : Option String
deriving Repr, DecidableEq

/-- src/postback_router.py:632 dep_postback up to its response dict:
parse and sanitize, require an identifier, resolve/create the user,
backfill clickid / trader_id, refuse duplicates inside a 60s window,
read the prior deposit count, then record via process_postback. -/
def dep_core (db : DB) (now : ℤ) (dupFault : Bool) (req : DepReq) : CoreOut :=
  let id := parse_id_parameter req.id
  let trader_id := sanitize_identifier req.trader_id "trader_id"
  let clickid := sanitize_identifier req.clickid "clickid"
  let subscriber_id := sanitize_identifier req.subscriber_id "subscriber_id"
  let sum_value := parse_sum_parameter req.sum
  let commission_value := parse_commission_parameter req.commission
  if !truthyInt id && !truthyStr subscriber_id && !truthyStr clickid && !truthyStr trader_id then
    coreErr db "At least one identifier required"
  else
    let pr := deposit_prepared db id subscriber_id clickid trader_id
    match pr.actual with
    | none => coreErr pr.db "User not found"
    | some actual =>
      if check_duplicate_transaction (runQuery dupFault
          (duplicate_query_count pr.db.transactions now actual "dep" (some sum_value) 60)) then
        { coreErr pr.db "Transaction already processed within last 60 seconds" with
            status := "duplicate", user_id := some actual }
      else
        let previous_deposits := get_user_deposits_count pr.db actual
        let tid_value := 6 + previous_deposits
        let res := process_postback pr.db actual "dep" (some sum_value) commission_value now
        if res.2.success then
          ⟨res.1, "ok", some actual, none, some tid_value, some sum_value,
            res.2.transaction_id, get_user_sub_id res.1 actual,
            get_user_clickid res.1 actual, none, false⟩
        else coreErr res.1 "db error"

/-- src/postback_router.py:858 redep_postback up to its response dict;
same flow as dep_core with action "redep". -/
def redep_core (db : DB) (now : ℤ) (dupFault : Bool) (req : DepReq) : CoreOut :=
  let id := parse_id_parameter req.id
  let trader_id := sanitize_identifier req.trader_id "trader_id"
  let clickid := sanitize_identifier req.clickid "clickid"
  let subscriber_id := sanitize_identifier req.subscriber_id "subscriber_id"
  let sum_value := parse_sum_parameter req.sum
  let commission_value := parse_commission_parameter req.commission
  if !truthyInt id && !truthyStr subscriber_id && !truthyStr clickid && !truthyStr trader_id then
    coreErr db "At least one identifier required"
  else
    let pr := deposit_prepared db id subscriber_id clickid trader_id
    match pr.actual with
    | none => coreErr pr.db "User not found"
    | some actual =>
      if check_duplicate_transaction (runQuery dupFault
          (duplicate_query_count pr.db.transactions now actual "redep" (some sum_value) 60)) then
        { coreErr pr.db "Transaction already processed within last 60 seconds" with
            status := "duplicate", user_id := some actual }
      else
        let previous_deposits := get_user_deposits_count pr.db actual
        let tid_value := 6 + previous_deposits
        let res := process_postback pr.db actual "redep" (some sum_value) commission_value now
        if res.2.success then
          ⟨res.1, "ok", some actual, none, some tid_value, some sum_value,
            res.2.transaction_id, get_user_sub_id res.1 actual,
            get_user_clickid res.1 actual, none, false⟩
        else coreErr res.1 "db error"

/-- src/postback_router.py:1084 withdraw_postback up to its response dict:
like dep but with action "withdraw" (which leaves the user row untouched)
and no commission. -/
def withdraw_core (db : DB) (now : ℤ) (dupFault : Bool) (req : DepReq) : CoreOut :=
  let id := parse_id_parameter req.id
  let trader_id := sanitize_identifier req.trader_id "trader_id"
  let clickid := sanitize_identifier req.clickid "clickid"
  let subscriber_id := sanitize_identifier req.subscriber_id "subscriber_id"
  let sum_value := parse_sum_parameter req.sum
  let pr := deposit_prepared db id subscriber_id clickid trader_id
  match pr.actual with
  | none => coreErr pr.db "User not found"
  | some actual =>
    if check_duplicate_transaction (runQuery dupFault
        (duplicate_query_count pr.db.transactions now actual "withdraw" (some sum_value) 60)) then
      { coreErr pr.db "Transaction already processed within last 60 seconds" with
          status := "duplicate", user_id := some actual }
    else
      let res := process_postback pr.db actual "withdraw" (some sum_value) none now
      if res.2.success then
        ⟨res.1, "ok", some actual, none, none, some sum_value,
          res.2.transaction_id, none, get_user_clickid res.1 actual, none, false⟩
      else coreErr res.1 "db error"

/-- src/postback_router.py:1442 revenue_postback up to its response dict:
reject a missing/non-numeric sum, resolve with trader_id priority, read the
previous stored revenue, refuse duplicates inside a 60s window, record the
transaction, then overwrite users.revenue; revenue_changed compares the new
value against the previously stored one. -/
def revenue_core (db : DB) (now : ℤ) (dupFault : Bool) (req : DepReq) : CoreOut :=
  let id := parse_id_parameter req.id
  let trader_id := sanitize_identifier req.trader_id "trader_id"
  let clickid := sanitize_identifier req.clickid "clickid"
  let subscriber_id := sanitize_identifier req.subscriber_id "subscriber_id"
  match parse_revenue_parameter req.sum with
  | none => coreErr db "Parameter sum is required for revenue postback"
  | some revenue_value =>
    if !truthyInt id && !truthyStr subscriber_id && !truthyStr clickid && !truthyStr trader_id then
      coreErr db "At least one identifier required"
    else
      let pr := revenue_prepared db id subscriber_id clickid trader_id
      match pr.actual with
      | none => coreErr pr.db "User not found"
      | some actual =>
        let previous_revenue := get_user_revenue pr.db actual
        if check_duplicate_transaction (runQuery dupFault
            (duplicate_query_count pr.db.transactions now actual "revenue" (some revenue_value) 60)) then
          { coreErr pr.db "Transaction already processed within last 60 seconds" with
              status := "duplicate", user_id := some actual }
        else
          let tr := create_transaction pr.db actual "revenue" (some revenue_value) none now
          if tr.2.success then
            let upd := update_user_revenue tr.1 actual revenue_value
            ⟨upd.1, "ok", some actual, none, none, some revenue_value, tr.2.transaction_id,
              get_user_sub_id upd.1 actual, get_user_clickid upd.1 actual, previous_revenue,
              decide (previous_revenue ≠ some revenue_value)⟩
          else coreErr tr.1 "db error"

/-- src/postback_router.py:326 ftm_postback up to its response dict:
ensure the user exists (backfilling clickid / trader_id), refuse
duplicates inside a 30s window, then record via process_postback. The
duplicate check and the insert both use the id query parameter. -/
def ftm_core (db : DB) (now : ℤ) (dupFault : Bool) (req : FtmReq) : CoreOut :=
  let trader_id := sanitize_identifier req.trader_id "trader_id"
  let clickid := sanitize_identifier req.clickid "clickid"
  let subscriber_id := sanitize_identifier req.subscriber_id "subscriber_id"
  let er := ensure_user_and_update_clickid db (some req.id) subscriber_id trader_id clickid
  if !er.2.success then coreErr er.1 "Unknown error"
  else if check_duplicate_transaction (runQuery dupFault
      (duplicate_query_count er.1.transactions now req.id "ftm" none 30)) then
    { coreErr er.1 "Transaction already processed within last 30 seconds" with
        status := "duplicate", user_id := some req.id }
  else
    let res := process_postback er.1 req.id "ftm" none none now
    if res.2.success then
      ⟨res.1, "ok", some req.id, none, none, none, res.2.transaction_id,
        get_user_sub_id res.1 req.id, get_user_clickid res.1 req.id, none, false⟩
    else coreErr res.1 "db error"

/-- src/postback_router.py:485 reg_postback up to its response dict; same
flow as ftm_core with action "reg" and the 30s window. -/
def reg_core (db : DB) (now : ℤ) (dupFault : Bool) (req : FtmReq) : CoreOut :=
  let trader_id := sanitize_identifier req.trader_id "trader_id"
  let clickid := sanitize_identifier req.clickid "clickid"
  let subscriber_id := sanitize_identifier req.subscriber_id "subscriber_id"
  let er := ensure_user_and_update_clickid db (some req.id) subscriber_id trader_id clickid
  if !er.2.success then coreErr er.1 "Unknown error"
  else if check_duplicate_transaction (runQuery dupFault
      (duplicate_query_count er.1.transactions now req.id "reg" none 30)) then
    { coreErr er.1 "Transaction already processed within last 30 seconds" with
        status := "duplicate", user_id := some req.id }
  else
    let res := process_postback er.1 req.id "reg" none none now
    if res.2.success then
      ⟨res.1, "ok", some req.id, none, none, none, res.2.transaction_id,
        get_user_sub_id res.1 req.id, get_user_clickid res.1 req.id, none, false⟩
    else coreErr res.1 "db error"

-- ==========================================================================
-- Response rendering (the dispatch fan-out and the JSON bodies)
-- ==========================================================================

/-- One target's slot in a response body: either the literal skip marker
string or a report of the attempted send. -/
inductive TargetReport
  | skipped (msg : String)
  | attempted (sent : Bool) (response : Option String)
deriving Repr, DecidableEq

/-- The response body of dep / redep / withdraw, restricted to the fields
the checked properties read; a None target slot means the endpoint has no
such slot or errored before dispatch. -/
structure DepResponse where
  status : String
  user_id : Option ℤ
  tid : Option ℕ
  sum : Option ℚ
  keitaro_postback : Option TargetReport
  chatterfy_postback : Option TargetReport
deriving Repr, DecidableEq

/-- src/postback_router.py:785-838: on the success path, gather the
chatterfy and keitaro sends (each only when its identifier is present)
through send_postbacks_parallel and report each target independently; a
missing identifier renders the literal skip marker, never a failure. -/
def dep_render (o : CoreOut) (env : DispatchEnv) : DepResponse :=
  if o.status = "ok" then
    let results := send_postbacks_parallel
      [("chatterfy", o.user_clickid.map fun _ => env.chatterfy),
       ("keitaro", o.subid.map fun _ => env.keitaro)]
    let keitaro_report :=
      match o.subid with
      | some _ =>
        TargetReport.attempted (((results.lookup "keitaro").map PBResult.ok).getD false)
          ((results.lookup "keitaro").map PBResult.text)
      | none => TargetReport.skipped "skipped - no subid"
    let chatterfy_report :=
      match o.user_clickid with
      | some _ =>
        TargetReport.attempted (((results.lookup "chatterfy").map PBResult.ok).getD false)
          ((results.lookup "chatterfy").map PBResult.text)
      | none => TargetReport.skipped "skipped - no clickid"
    ⟨o.status, o.user_id, o.tid, o.sum_value, some keitaro_report, some chatterfy_report⟩
  else ⟨o.status, o.user_id, o.tid, o.sum_value, none, none⟩

/-- src/postback_router.py:632 dep_postback: core flow then rendering. -/
def dep_postback (db : DB) (now : ℤ) (env : DispatchEnv) (dupFault : Bool) (req : DepReq) :
    DB × DepResponse :=
  let o := dep_core db now dupFault req
  (o.db, dep_render o env)

/-- src/postback_router.py:858 redep_postback: core flow then rendering
(same response shape as dep). -/
def redep_postback (db : DB) (now : ℤ) (env : DispatchEnv) (dupFault : Bool) (req : DepReq) :
    DB × DepResponse :=
  let o := redep_core db now dupFault req
  (o.db, dep_render o env)

/-- src/postback_router.py:1206-1239: withdraw awaits the single chatterfy
send directly and reports it, or renders the skip marker without a send
when the user has no clickid. -/
def withdraw_render (o : CoreOut) (env : DispatchEnv) : DepResponse :=
  if o.status = "ok" then
    match o.user_clickid with
    | some _ =>
      ⟨o.status, o.user_id, none, o.sum_value, none,
        some (.attempted env.chatterfy_direct.ok (some env.chatterfy_direct.text))⟩
    | none =>
      ⟨o.status, o.user_id, none, o.sum_value, none, some (.skipped "skipped - no clickid")⟩
  else ⟨o.status, o.user_id, none, o.sum_value, none, none⟩

/-- src/postback_router.py:1084 withdraw_postback: core flow then
rendering. -/
def withdraw_postback (db : DB) (now : ℤ) (env : DispatchEnv) (dupFault : Bool) (req : DepReq) :
    DB × DepResponse :=
  let o := withdraw_core db now dupFault req
  (o.db, withdraw_render o env)

/-- The revenue response body, restricted to the checked fields;
keitaro_attempted records whether send_keitaro_postback was invoked. -/
structure RevenueResponse where
  status : String
  user_id : Option ℤ
  revenue : Option ℚ
  previous_revenue : Option ℚ
  revenue_changed : Bool
  keitaro_attempted : Bool
  keitaro_postback : Option TargetReport
deriving Repr, DecidableEq

/-- src/postback_router.py:1600-1647: the keitaro send runs only when the
revenue value changed and a subid exists; an unchanged value renders the
skip marker without any send. -/
def revenue_render (o : CoreOut) (env : DispatchEnv) : RevenueResponse :=
  if o.status = "ok" then
    if o.revenue_changed then
      match o.subid with
      | some _ =>
        ⟨o.status, o.user_id, o.sum_value, o.previous_revenue, true, true,
          some (.attempted env.keitaro_direct.ok (some env.keitaro_direct.text))⟩
      | none =>
        ⟨o.status, o.user_id, o.sum_value, o.previous_revenue, true, false,
          some (.attempted false none)⟩
    else
      ⟨o.status, o.user_id, o.sum_value, o.previous_revenue, false, false,
        some (.skipped "skipped - same value")⟩
  else ⟨o.status, o.user_id, o.sum_value, o.previous_revenue, o.revenue_changed, false, none⟩

/-- src/postback_router.py:1442 revenue_postback: core flow then
rendering. -/
def revenue_postback (db : DB) (now : ℤ) (env : DispatchEnv) (dupFault : Bool) (req : DepReq) :
    DB × RevenueResponse :=
  let o := revenue_core db now dupFault req
  (o.db, revenue_render o env)

/-- The minimal response body shared by ftm and reg. -/
structure BasicResponse where
  status : String
  user_id : Option ℤ
deriving Repr, DecidableEq

/-- src/postback_router.py:326 ftm_postback (response restricted to status
and user_id). -/
def ftm_postback (db : DB) (now : ℤ) (dupFault : Bool) (req : FtmReq) :
    DB × BasicResponse :=
  let o := ftm_core db now dupFault req
  (o.db, ⟨o.status, o.user_id⟩)

/-- src/postback_router.py:485 reg_postback (response restricted to status
and user_id). -/
def reg_postback (db : DB) (now : ℤ) (dupFault : Bool) (req : FtmReq) :
    DB × BasicResponse :=
  let o := reg_core db now dupFault req
  (o.db, ⟨o.status, o.user_id⟩)

-- ==========================================================================
-- Resilient HTTP client (src/api_request.py)
-- ==========================================================================

/-- Which TCP connection an HTTP attempt runs on: the worker's shared
connection-pooled session, or a freshly constructed single-use one. -/
inductive ConnKind
  | pooled
  | fresh
deriving Repr, DecidableEq

/-- What one attempt of the retry loop observes from the network. -/
inductive AttemptOutcome
  | httpOk (text : String)
  | httpErr (status : ℕ) (text : String)
  | timeout
  | clientError (msg : String)
  | unknownError (msg : String)
deriving Repr, DecidableEq

/-- The dict fetch_with_retry returns, restricted to the checked fields. -/
structure FetchResult where
  ok : Bool
  text : String
  attempt : ℕ
deriving Repr, DecidableEq

/-- src/api_request.py:16 get_http_session: hands back the worker's shared
connection-pooled ClientSession, creating it lazily when absent or closed;
the object returned is always the pooled session. -/
def get_http_session : ConnKind := ConnKind.pooled

/-- The attempt loop of src/api_request.py:67-152. `session` is the single
object obtained from get_http_session before the loop; every iteration
issues session.get on it, and the connection trace records, per attempt,
which connection that was. A 200 returns immediately; every other outcome
falls through to the next attempt until the retry budget is spent. -/
def fetch_retry_loop (env : ℕ → AttemptOutcome) (session : ConnKind) (retries : ℕ) :
    ℕ → ℕ → List ConnKind → FetchResult × List ConnKind
  | 0, _attempt, trace => (⟨false, "failed", retries⟩, trace)
  | remaining + 1, attempt, trace =>
    match env attempt with
    | .httpOk text => (⟨true, text, attempt⟩, trace ++ [session])
    | _ => fetch_retry_loop env session retries remaining (attempt + 1) (trace ++ [session])

/-- src/api_request.py:46 fetch_with_retry: acquire the shared session
once, then run the attempt loop; returns the result dict and the trace of
connections used, one entry per attempt made. -/
def fetch_with_retry (env : ℕ → AttemptOutcome) (retries : ℕ) : FetchResult × List ConnKind :=
  let session := get_http_session
  fetch_retry_loop env session retries retries 1 []

-- ==========================================================================
-- A concurrent schedule of two deposit requests (src/postback_router.py)
-- ==========================================================================

/-- A legal interleaving of two concurrent /postback/dep requests that
resolved to the same user: every SQL statement runs on its own
autocommitted connection (DataBase.get_connection sets autocommit = True)
and dep_postback takes no lock between the duplicate check, the
deposit-count read and the insert (src/postback_router.py:709-741), so
both requests may pass the duplicate guard and read the deposit count
before either insert commits. Returns none when either request would be
answered `duplicate`; otherwise the two computed tid slots and the final
database. -/
def dep_concurrent_schedule (db : DB) (uid : ℤ) (s : ℚ) (commission : Option ℚ) (now : ℤ) :
    Option ((ℕ × ℕ) × DB) :=
  let dupA := check_duplicate_transaction
    (.ok (duplicate_query_count db.transactions now uid "dep" (some s) 60))
  let dupB := check_duplicate_transaction
    (.ok (duplicate_query_count db.transactions now uid "dep" (some s) 60))
  if dupA || dupB then none
  else
    let tidA := 6 + get_user_deposits_count db uid
    let tidB := 6 + get_user_deposits_count db uid
    let db1 := (process_postback db uid "dep" (some s) commission now).1
    let db2 := (process_postback db1 uid "dep" (some s) commission now).1
    some ((tidA, tidB), db2)

-- ==========================================================================
-- Concrete fixtures used for witnesses and counterexamples
-- ==========================================================================

/-- An environment where every downstream send succeeds. -/
def fxEnvOK : DispatchEnv := ⟨.ok ⟨true, "ok"⟩, .ok ⟨true, "ok"⟩, ⟨true, "ok"⟩, ⟨true, "ok"⟩⟩

/-- An environment where the gathered keitaro coroutine raises and the
direct sends fail. -/
def fxEnvBoom : DispatchEnv := ⟨.error "boom", .ok ⟨true, "ok"⟩, ⟨false, "timeout"⟩, ⟨false, "timeout"⟩⟩

/-- A user row with only an id. -/
def fxUserPlain : User := blankUser 1 none none none

/-- A user row with a keitaro sub id but no revenue recorded yet. -/
def fxUserSub : User := ⟨1, none, none, none, some "s1", none, none, false, none, false, none, none, false, none, none⟩

/-- A user row with a trader id, a sub id and revenue 5. -/
def fxUserTrader : User := ⟨1, none, none, some "t9", some "s1", some 5, none, false, none, false, none, none, false, none, none⟩

/-- A second user row with a different internal id and revenue 7. -/
def fxUserB : User := ⟨2, none, none, none, none, some 7, none, false, none, false, none, none, false, none, none⟩

/-- A deposit/revenue style request identified by internal id 1 with
amount q. -/
def fxReqId (q : ℚ) : DepReq := ⟨.val 1, .val q, .absent, none, none, none⟩

/-- A revenue request supplying both internal id 2 and trader id t9. -/
def fxReqTrader : DepReq := ⟨.val 2, .val 100, .absent, none, none, some "t9"⟩

/-- An ftm/reg style request for user 1 with no other identifiers. -/
def fxFtmReq : FtmReq := ⟨1, none, none, none⟩

/-- Revenue scenario run 1: value 100 against a user with revenue unset. -/
def fxRevRun1 : DB × RevenueResponse :=
  revenue_postback ⟨[fxUserSub], [], 1⟩ 0 fxEnvOK false (fxReqId 100)

/-- Revenue scenario run 2: value 100 again, 100 seconds later (outside
the 60s dedupe window). -/
def fxRevRun2 : DB × RevenueResponse :=
  revenue_postback fxRevRun1.1 100 fxEnvOK false (fxReqId 100)

/-- Revenue scenario run 3: value 150, another 100 seconds later. -/
def fxRevRun3 : DB × RevenueResponse :=
  revenue_postback fxRevRun2.1 200 fxEnvOK false (fxReqId 150)

-- ==========================================================================
-- Helper lemmas: user-table operations never touch the transactions table
-- ==========================================================================

theorem update_user_clickid_transactions (db : DB) (uid : ℤ) (c : String) :
    (update_user_clickid db uid c).transactions = db.transactions := rfl

theorem update_user_trader_id_transactions (db : DB) (uid : ℤ) (t : String) :
    (update_user_trader_id db uid t).1.transactions = db.transactions := rfl

theorem update_user_revenue_transactions (db : DB) (uid : ℤ) (r : ℚ) :
    (update_user_revenue db uid r).1.transactions = db.transactions := rfl

theorem create_user_if_not_exists_transactions (db : DB) (uid : ℤ) (s t c : Option String) :
    (create_user_if_not_exists db uid s t c).1.transactions = db.transactions := by
  unfold create_user_if_not_exists
  cases selectUserById db uid <;> rfl

theorem ensure_user_exists_transactions (db : DB) (uid : Option ℤ) (s t c : Option String) :
    (ensure_user_exists db uid s t c).1.transactions = db.transactions := by
  unfold ensure_user_exists
  cases find_user_by_any_identifier db uid s c t with
  | some f => rfl
  | none =>
    by_cases hu : truthyInt uid
    · simp [hu, create_user_if_not_exists_transactions]
    · simp [hu]

theorem ensure_user_and_update_clickid_transactions (db : DB) (uid : Option ℤ)
    (s t c : Option String) :
    (ensure_user_and_update_clickid db uid s t c).1.transactions = db.transactions := by
  unfold ensure_user_and_update_clickid
  dsimp only
  repeat' split
  all_goals
    simp [update_user_trader_id_transactions, update_user_clickid_transactions,
      ensure_user_exists_transactions]

theorem update_trader_id_if_needed_transactions (db : DB) (uid : ℤ) (t : Option String) :
    (update_trader_id_if_needed db uid t).1.transactions = db.transactions := by
  unfold update_trader_id_if_needed
  dsimp only
  repeat' split
  all_goals simp [update_user_trader_id_transactions]

theorem deposit_prepared_transactions (db : DB) (id : Option ℤ) (s c t : Option String) :
    (deposit_prepared db id s c t).db.transactions = db.transactions := by
  unfold deposit_prepared
  dsimp only
  repeat' split
  all_goals
    simp_all [update_trader_id_if_needed_transactions, update_user_clickid_transactions,
      ensure_user_and_update_clickid_transactions]

theorem revenue_prepared_transactions (db : DB) (id : Option ℤ) (s c t : Option String) :
    (revenue_prepared db id s c t).db.transactions = db.transactions := by
  unfold revenue_prepared
  dsimp only
  repeat' split
  all_goals
    simp_all [update_trader_id_if_needed_transactions, update_user_clickid_transactions,
      ensure_user_and_update_clickid_transactions]

theorem update_user_clickid_next_txn_id (db : DB) (uid : ℤ) (c : String) :
    (update_user_clickid db uid c).next_txn_id = db.next_txn_id := rfl

theorem update_user_trader_id_next_txn_id (db : DB) (uid : ℤ) (t : String) :
    (update_user_trader_id db uid t).1.next_txn_id = db.next_txn_id := rfl

theorem create_user_if_not_exists_next_txn_id (db : DB) (uid : ℤ) (s t c : Option String) :
    (create_user_if_not_exists db uid s t c).1.next_txn_id = db.next_txn_id := by
  unfold create_user_if_not_exists
  cases selectUserById db uid <;> rfl

theorem ensure_user_exists_next_txn_id (db : DB) (uid : Option ℤ) (s t c : Option String) :
    (ensure_user_exists db uid s t c).1.next_txn_id = db.next_txn_id := by
  unfold ensure_user_exists
  cases find_user_by_any_identifier db uid s c t with
  | some f => rfl
  | none =>
    by_cases hu : truthyInt uid
    · simp [hu, create_user_if_not_exists_next_txn_id]
    · simp [hu]

theorem ensure_user_and_update_clickid_next_txn_id (db : DB) (uid : Option ℤ)
    (s t c : Option String) :
    (ensure_user_and_update_clickid db uid s t c).1.next_txn_id = db.next_txn_id := by
  unfold ensure_user_and_update_clickid
  dsimp only
  repeat' split
  all_goals
    simp [update_user_trader_id_next_txn_id, update_user_clickid_next_txn_id,
      ensure_user_exists_next_txn_id]

theorem update_trader_id_if_needed_next_txn_id (db : DB) (uid : ℤ) (t : Option String) :
    (update_trader_id_if_needed db uid t).1.next_txn_id = db.next_txn_id := by
  unfold update_trader_id_if_needed
  dsimp only
  repeat' split
  all_goals simp [update_user_trader_id_next_txn_id]

theorem deposit_prepared_next_txn_id (db : DB) (id : Option ℤ) (s c t : Option String) :
    (deposit_prepared db id s c t).db.next_txn_id = db.next_txn_id := by
  unfold deposit_prepared
  dsimp only
  repeat' split
  all_goals
    simp_all [update_trader_id_if_needed_next_txn_id, update_user_clickid_next_txn_id,
      ensure_user_and_update_clickid_next_txn_id]

theorem revenue_prepared_next_txn_id (db : DB) (id : Option ℤ) (s c t : Option String) :
    (revenue_prepared db id s c t).db.next_txn_id = db.next_txn_id := by
  unfold revenue_prepared
  dsimp only
  repeat' split
  all_goals
    simp_all [update_trader_id_if_needed_next_txn_id, update_user_clickid_next_txn_id,
      ensure_user_and_update_clickid_next_txn_id]

theorem update_user_event_transactions (db : DB) (uid : ℤ) (action : String)
    (s : Option ℚ) (now : ℤ) :
    (update_user_event db uid action s now).1.transactions = db.transactions := by
  unfold update_user_event
  repeat' split
  all_goals rfl

/-- process_postback always reports success and always appends exactly the
new transaction row (src/db.py:483: the insert is unconditional and the
result of the user update is only echoed in user_updated). -/
theorem process_postback_shape (db : DB) (uid : ℤ) (action : String)
    (s c : Option ℚ) (now : ℤ) :
    (process_postback db uid action s c now).2.success = true ∧
    (process_postback db uid action s c now).1.transactions =
      db.transactions ++ [⟨db.next_txn_id, uid, action, s, c, now⟩] := by
  unfold process_postback create_transaction
  refine ⟨rfl, ?_⟩
  simp [update_user_event_transactions]

theorem truthyStr_none : truthyStr none = false := rfl

theorem truthyInt_none : truthyInt none = false := rfl

/-- When every identifier is falsy, the shared deposit resolution resolves
nobody. -/
theorem deposit_prepared_actual_none (db : DB) (id : Option ℤ) (s c t : Option String)
    (hid : truthyInt id = false) (hs : truthyStr s = false)
    (hc : truthyStr c = false) (ht : truthyStr t = false) :
    (deposit_prepared db id s c t).actual = none := by
  unfold deposit_prepared find_user_by_any_identifier
  simp [hid, hs, hc, ht]

/-- When every identifier is falsy, the revenue resolution resolves
nobody. -/
theorem revenue_prepared_actual_none (db : DB) (id : Option ℤ) (s c t : Option String)
    (hid : truthyInt id = false) (hs : truthyStr s = false)
    (hc : truthyStr c = false) (ht : truthyStr t = false) :
    (revenue_prepared db id s c t).actual = none := by
  unfold revenue_prepared find_user_by_any_identifier
  simp [hid, hs, hc, ht, truthyStr_none, truthyInt_none]

/-- The deposit count only reads the transactions table. -/
theorem get_user_deposits_count_congr (db1 db2 : DB) (uid : ℤ)
    (h : db1.transactions = db2.transactions) :
    get_user_deposits_count db1 uid = get_user_deposits_count db2 uid := by
  unfold get_user_deposits_count
  rw [h]

-- ==========================================================================
-- Behaviour of the handler cores on the duplicate and accepted paths
-- ==========================================================================

theorem dep_core_duplicate (db : DB) (now : ℤ) (req : DepReq) (u : ℤ)
    (hres : (deposit_prepared db (parse_id_parameter req.id)
        (sanitize_identifier req.subscriber_id "subscriber_id")
        (sanitize_identifier req.clickid "clickid")
        (sanitize_identifier req.trader_id "trader_id")).actual = some u)
    (hdup : 0 < duplicate_query_count db.transactions now u "dep"
        (some (parse_sum_parameter req.sum)) 60) :
    (dep_core db now false req).status = "duplicate" ∧
    (dep_core db now false req).db.transactions = db.transactions := by
  have hall : ¬((!truthyInt (parse_id_parameter req.id) &&
      !truthyStr (sanitize_identifier req.subscriber_id "subscriber_id") &&
      !truthyStr (sanitize_identifier req.clickid "clickid") &&
      !truthyStr (sanitize_identifier req.trader_id "trader_id")) = true) := by
    intro hcond
    simp only [Bool.and_eq_true, Bool.not_eq_true'] at hcond
    obtain ⟨⟨⟨h1, h2⟩, h3⟩, h4⟩ := hcond
    rw [deposit_prepared_actual_none db _ _ _ _ h1 h2 h3 h4] at hres
    exact Option.noConfusion hres
  have hchk : check_duplicate_transaction (runQuery false
      (duplicate_query_count (deposit_prepared db (parse_id_parameter req.id)
          (sanitize_identifier req.subscriber_id "subscriber_id")
          (sanitize_identifier req.clickid "clickid")
          (sanitize_identifier req.trader_id "trader_id")).db.transactions
        now u "dep" (some (parse_sum_parameter req.sum)) 60)) = true := by
    rw [deposit_prepared_transactions]
    simp [runQuery, check_duplicate_transaction, hdup]
  unfold dep_core
  dsimp only
  rw [if_neg hall, hres]
  dsimp only
  rw [if_pos hchk]
  exact ⟨rfl, deposit_prepared_transactions db _ _ _ _⟩

theorem dep_core_accepted (db : DB) (now : ℤ) (f : Bool) (req : DepReq) (u : ℤ)
    (hres : (deposit_prepared db (parse_id_parameter req.id)
        (sanitize_identifier req.subscriber_id "subscriber_id")
        (sanitize_identifier req.clickid "clickid")
        (sanitize_identifier req.trader_id "trader_id")).actual = some u)
    (hdup : check_duplicate_transaction (runQuery f
        (duplicate_query_count db.transactions now u "dep"
          (some (parse_sum_parameter req.sum)) 60)) = false) :
    (dep_core db now f req).status = "ok" ∧
    (dep_core db now f req).user_id = some u ∧
    (dep_core db now f req).tid = some (6 + get_user_deposits_count db u) ∧
    (dep_core db now f req).db.transactions =
      db.transactions ++ [⟨db.next_txn_id, u, "dep",
        some (parse_sum_parameter req.sum), parse_commission_parameter req.commission, now⟩] := by
  have hall : ¬((!truthyInt (parse_id_parameter req.id) &&
      !truthyStr (sanitize_identifier req.subscriber_id "subscriber_id") &&
      !truthyStr (sanitize_identifier req.clickid "clickid") &&
      !truthyStr (sanitize_identifier req.trader_id "trader_id")) = true) := by
    intro hcond
    simp only [Bool.and_eq_true, Bool.not_eq_true'] at hcond
    obtain ⟨⟨⟨h1, h2⟩, h3⟩, h4⟩ := hcond
    rw [deposit_prepared_actual_none db _ _ _ _ h1 h2 h3 h4] at hres
    exact Option.noConfusion hres
  have hchk : ¬(check_duplicate_transaction (runQuery f
      (duplicate_query_count (deposit_prepared db (parse_id_parameter req.id)
          (sanitize_identifier req.subscriber_id "subscriber_id")
          (sanitize_identifier req.clickid "clickid")
          (sanitize_identifier req.trader_id "trader_id")).db.transactions
        now u "dep" (some (parse_sum_parameter req.sum)) 60)) = true) := by
    rw [deposit_prepared_transactions]
    simp [hdup]
  unfold dep_core
  dsimp only
  rw [if_neg hall, hres]
  dsimp only
  rw [if_neg hchk]
  have hps := process_postback_shape (deposit_prepared db (parse_id_parameter req.id)
      (sanitize_identifier req.subscriber_id "subscriber_id")
      (sanitize_identifier req.clickid "clickid")
      (sanitize_identifier req.trader_id "trader_id")).db u "dep"
      (some (parse_sum_parameter req.sum)) (parse_commission_parameter req.commission) now
  rw [if_pos hps.1]
  refine ⟨rfl, rfl, ?_, ?_⟩
  · dsimp only
    rw [get_user_deposits_count_congr _ db u (deposit_prepared_transactions db _ _ _ _)]
  · dsimp only
    rw [hps.2, deposit_prepared_transactions, deposit_prepared_next_txn_id]

theorem redep_core_duplicate (db : DB) (now : ℤ) (req : DepReq) (u : ℤ)
    (hres : (deposit_prepared db (parse_id_parameter req.id)
        (sanitize_identifier req.subscriber_id "subscriber_id")
        (sanitize_identifier req.clickid "clickid")
        (sanitize_identifier req.trader_id "trader_id")).actual = some u)
    (hdup : 0 < duplicate_query_count db.transactions now u "redep"
        (some (parse_sum_parameter req.sum)) 60) :
    (redep_core db now false req).status = "duplicate" ∧
    (redep_core db now false req).db.transactions = db.transactions := by
  have hall : ¬((!truthyInt (parse_id_parameter req.id) &&
      !truthyStr (sanitize_identifier req.subscriber_id "subscriber_id") &&
      !truthyStr (sanitize_identifier req.clickid "clickid") &&
      !truthyStr (sanitize_identifier req.trader_id "trader_id")) = true) := by
    intro hcond
    simp only [Bool.and_eq_true, Bool.not_eq_true'] at hcond
    obtain ⟨⟨⟨h1, h2⟩, h3⟩, h4⟩ := hcond
    rw [deposit_prepared_actual_none db _ _ _ _ h1 h2 h3 h4] at hres
    exact Option.noConfusion hres
  have hchk : check_duplicate_transaction (runQuery false
      (duplicate_query_count (deposit_prepared db (parse_id_parameter req.id)
          (sanitize_identifier req.subscriber_id "subscriber_id")
          (sanitize_identifier req.clickid "clickid")
          (sanitize_identifier req.trader_id "trader_id")).db.transactions
        now u "redep" (some (parse_sum_parameter req.sum)) 60)) = true := by
    rw [deposit_prepared_transactions]
    simp [runQuery, check_duplicate_transaction, hdup]
  unfold redep_core
  dsimp only
  rw [if_neg hall, hres]
  dsimp only
  rw [if_pos hchk]
  exact ⟨rfl, deposit_prepared_transactions db _ _ _ _⟩

theorem redep_core_accepted (db : DB) (now : ℤ) (f : Bool) (req : DepReq) (u : ℤ)
    (hres : (deposit_prepared db (parse_id_parameter req.id)
        (sanitize_identifier req.subscriber_id "subscriber_id")
        (sanitize_identifier req.clickid "clickid")
        (sanitize_identifier req.trader_id "trader_id")).actual = some u)
    (hdup : check_duplicate_transaction (runQuery f
        (duplicate_query_count db.transactions now u "redep"
          (some (parse_sum_parameter req.sum)) 60)) = false) :
    (redep_core db now f req).status = "ok" ∧
    (redep_core db now f req).user_id = some u ∧
    (redep_core db now f req).tid = some (6 + get_user_deposits_count db u) ∧
    (redep_core db now f req).db.transactions =
      db.transactions ++ [⟨db.next_txn_id, u, "redep",
        some (parse_sum_parameter req.sum), parse_commission_parameter req.commission, now⟩] := by
  have hall : ¬((!truthyInt (parse_id_parameter req.id) &&
      !truthyStr (sanitize_identifier req.subscriber_id "subscriber_id") &&
      !truthyStr (sanitize_identifier req.clickid "clickid") &&
      !truthyStr (sanitize_identifier req.trader_id "trader_id")) = true) := by
    intro hcond
    simp only [Bool.and_eq_true, Bool.not_eq_true'] at hcond
    obtain ⟨⟨⟨h1, h2⟩, h3⟩, h4⟩ := hcond
    rw [deposit_prepared_actual_none db _ _ _ _ h1 h2 h3 h4] at hres
    exact Option.noConfusion hres
  have hchk : ¬(check_duplicate_transaction (runQuery f
      (duplicate_query_count (deposit_prepared db (parse_id_parameter req.id)
          (sanitize_identifier req.subscriber_id "subscriber_id")
          (sanitize_identifier req.clickid "clickid")
          (sanitize_identifier req.trader_id "trader_id")).db.transactions
        now u "redep" (some (parse_sum_parameter req.sum)) 60)) = true) := by
    rw [deposit_prepared_transactions]
    simp [hdup]
  unfold redep_core
  dsimp only
  rw [if_neg hall, hres]
  dsimp only
  rw [if_neg hchk]
  have hps := process_postback_shape (deposit_prepared db (parse_id_parameter req.id)
      (sanitize_identifier req.subscriber_id "subscriber_id")
      (sanitize_identifier req.clickid "clickid")
      (sanitize_identifier req.trader_id "trader_id")).db u "redep"
      (some (parse_sum_parameter req.sum)) (parse_commission_parameter req.commission) now
  rw [if_pos hps.1]
  refine ⟨rfl, rfl, ?_, ?_⟩
  · dsimp only
    rw [get_user_deposits_count_congr _ db u (deposit_prepared_transactions db _ _ _ _)]
  · dsimp only
    rw [hps.2, deposit_prepared_transactions, deposit_prepared_next_txn_id]

theorem withdraw_core_duplicate (db : DB) (now : ℤ) (req : DepReq) (u : ℤ)
    (hres : (deposit_prepared db (parse_id_parameter req.id)
        (sanitize_identifier req.subscriber_id "subscriber_id")
        (sanitize_identifier req.clickid "clickid")
        (sanitize_identifier req.trader_id "trader_id")).actual = some u)
    (hdup : 0 < duplicate_query_count db.transactions now u "withdraw"
        (some (parse_sum_parameter req.sum)) 60) :
    (withdraw_core db now false req).status = "duplicate" ∧
    (withdraw_core db now false req).db.transactions = db.transactions := by
  have hchk : check_duplicate_transaction (runQuery false
      (duplicate_query_count (deposit_prepared db (parse_id_parameter req.id)
          (sanitize_identifier req.subscriber_id "subscriber_id")
          (sanitize_identifier req.clickid "clickid")
          (sanitize_identifier req.trader_id "trader_id")).db.transactions
        now u "withdraw" (some (parse_sum_parameter req.sum)) 60)) = true := by
    rw [deposit_prepared_transactions]
    simp [runQuery, check_duplicate_transaction, hdup]
  unfold withdraw_core
  dsimp only
  rw [hres]
  dsimp only
  rw [if_pos hchk]
  exact ⟨rfl, deposit_prepared_transactions db _ _ _ _⟩

theorem withdraw_core_accepted (db : DB) (now : ℤ) (f : Bool) (req : DepReq) (u : ℤ)
    (hres : (deposit_prepared db (parse_id_parameter req.id)
        (sanitize_identifier req.subscriber_id "subscriber_id")
        (sanitize_identifier req.clickid "clickid")
        (sanitize_identifier req.trader_id "trader_id")).actual = some u)
    (hdup : check_duplicate_transaction (runQuery f
        (duplicate_query_count db.transactions now u "withdraw"
          (some (parse_sum_parameter req.sum)) 60)) = false) :
    (withdraw_core db now f req).status = "ok" ∧
    (withdraw_core db now f req).user_id = some u ∧
    (withdraw_core db now f req).db.transactions =
      db.transactions ++ [⟨db.next_txn_id, u, "withdraw",
        some (parse_sum_parameter req.sum), none, now⟩] := by
  have hchk : ¬(check_duplicate_transaction (runQuery f
      (duplicate_query_count (deposit_prepared db (parse_id_parameter req.id)
          (sanitize_identifier req.subscriber_id "subscriber_id")
          (sanitize_identifier req.clickid "clickid")
          (sanitize_identifier req.trader_id "trader_id")).db.transactions
        now u "withdraw" (some (parse_sum_parameter req.sum)) 60)) = true) := by
    rw [deposit_prepared_transactions]
    simp [hdup]
  unfold withdraw_core
  dsimp only
  rw [hres]
  dsimp only
  rw [if_neg hchk]
  have hps := process_postback_shape (deposit_prepared db (parse_id_parameter req.id)
      (sanitize_identifier req.subscriber_id "subscriber_id")
      (sanitize_identifier req.clickid "clickid")
      (sanitize_identifier req.trader_id "trader_id")).db u "withdraw"
      (some (parse_sum_parameter req.sum)) none now
  rw [if_pos hps.1]
  refine ⟨rfl, rfl, ?_⟩
  dsimp only
  rw [hps.2, deposit_prepared_transactions, deposit_prepared_next_txn_id]

theorem revenue_core_duplicate (db : DB) (now : ℤ) (req : DepReq) (u : ℤ) (r : ℚ)
    (hsum : parse_revenue_parameter req.sum = some r)
    (hres : (revenue_prepared db (parse_id_parameter req.id)
        (sanitize_identifier req.subscriber_id "subscriber_id")
        (sanitize_identifier req.clickid "clickid")
        (sanitize_identifier req.trader_id "trader_id")).actual = some u)
    (hdup : 0 < duplicate_query_count db.transactions now u "revenue" (some r) 60) :
    (revenue_core db now false req).status = "duplicate" ∧
    (revenue_core db now false req).db.transactions = db.transactions := by
  have hall : ¬((!truthyInt (parse_id_parameter req.id) &&
      !truthyStr (sanitize_identifier req.subscriber_id "subscriber_id") &&
      !truthyStr (sanitize_identifier req.clickid "clickid") &&
      !truthyStr (sanitize_identifier req.trader_id "trader_id")) = true) := by
    intro hcond
    simp only [Bool.and_eq_true, Bool.not_eq_true'] at hcond
    obtain ⟨⟨⟨h1, h2⟩, h3⟩, h4⟩ := hcond
    rw [revenue_prepared_actual_none db _ _ _ _ h1 h2 h3 h4] at hres
    exact Option.noConfusion hres
  have hchk : check_duplicate_transaction (runQuery false
      (duplicate_query_count (revenue_prepared db (parse_id_parameter req.id)
          (sanitize_identifier req.subscriber_id "subscriber_id")
          (sanitize_identifier req.clickid "clickid")
          (sanitize_identifier req.trader_id "trader_id")).db.transactions
        now u "revenue" (some r) 60)) = true := by
    rw [revenue_prepared_transactions]
    simp [runQuery, check_duplicate_transaction, hdup]
  unfold revenue_core
  dsimp only
  rw [hsum]
  dsimp only
  rw [if_neg hall, hres]
  dsimp only
  rw [if_pos hchk]
  exact ⟨rfl, revenue_prepared_transactions db _ _ _ _⟩

theorem revenue_core_accepted (db : DB) (now : ℤ) (f : Bool) (req : DepReq) (u : ℤ) (r : ℚ)
    (hsum : parse_revenue_parameter req.sum = some r)
    (hres : (revenue_prepared db (parse_id_parameter req.id)
        (sanitize_identifier req.subscriber_id "subscriber_id")
        (sanitize_identifier req.clickid "clickid")
        (sanitize_identifier req.trader_id "trader_id")).actual = some u)
    (hdup : check_duplicate_transaction (runQuery f
        (duplicate_query_count db.transactions now u "revenue" (some r) 60)) = false) :
    (revenue_core db now f req).status = "ok" ∧
    (revenue_core db now f req).user_id = some u ∧
    (revenue_core db now f req).db.transactions =
      db.transactions ++ [⟨db.next_txn_id, u, "revenue", some r, none, now⟩] ∧
    (revenue_core db now f req).previous_revenue =
      get_user_revenue (revenue_prepared db (parse_id_parameter req.id)
        (sanitize_identifier req.subscriber_id "subscriber_id")
        (sanitize_identifier req.clickid "clickid")
        (sanitize_identifier req.trader_id "trader_id")).db u ∧
    (revenue_core db now f req).revenue_changed =
      decide (get_user_revenue (revenue_prepared db (parse_id_parameter req.id)
        (sanitize_identifier req.subscriber_id "subscriber_id")
        (sanitize_identifier req.clickid "clickid")
        (sanitize_identifier req.trader_id "trader_id")).db u ≠ some r) ∧
    (revenue_core db now f req).db =
      (update_user_revenue (create_transaction (revenue_prepared db (parse_id_parameter req.id)
        (sanitize_identifier req.subscriber_id "subscriber_id")
        (sanitize_identifier req.clickid "clickid")
        (sanitize_identifier req.trader_id "trader_id")).db u "revenue" (some r) none now).1 u r).1 := by
  have hall : ¬((!truthyInt (parse_id_parameter req.id) &&
      !truthyStr (sanitize_identifier req.subscriber_id "subscriber_id") &&
      !truthyStr (sanitize_identifier req.clickid "clickid") &&
      !truthyStr (sanitize_identifier req.trader_id "trader_id")) = true) := by
    intro hcond
    simp only [Bool.and_eq_true, Bool.not_eq_true'] at hcond
    obtain ⟨⟨⟨h1, h2⟩, h3⟩, h4⟩ := hcond
    rw [revenue_prepared_actual_none db _ _ _ _ h1 h2 h3 h4] at hres
    exact Option.noConfusion hres
  have hchk : ¬(check_duplicate_transaction (runQuery f
      (duplicate_query_count (revenue_prepared db (parse_id_parameter req.id)
          (sanitize_identifier req.subscriber_id "subscriber_id")
          (sanitize_identifier req.clickid "clickid")
          (sanitize_identifier req.trader_id "trader_id")).db.transactions
        now u "revenue" (some r) 60)) = true) := by
    rw [revenue_prepared_transactions]
    simp [hdup]
  unfold revenue_core
  dsimp only
  rw [hsum]
  dsimp only
  rw [if_neg hall, hres]
  dsimp only
  rw [if_neg hchk]
  have htr : (create_transaction (revenue_prepared db (parse_id_parameter req.id)
      (sanitize_identifier req.subscriber_id "subscriber_id")
      (sanitize_identifier req.clickid "clickid")
      (sanitize_identifier req.trader_id "trader_id")).db u "revenue" (some r) none now).2.success
        = true := rfl
  rw [if_pos htr]
  refine ⟨rfl, rfl, ?_, rfl, rfl, rfl⟩
  dsimp only
  rw [update_user_revenue_transactions]
  unfold create_transaction
  dsimp only
  rw [revenue_prepared_transactions, revenue_prepared_next_txn_id]

theorem ftm_core_duplicate (db : DB) (now : ℤ) (req : FtmReq)
    (hsucc : (ensure_user_and_update_clickid db (some req.id)
        (sanitize_identifier req.subscriber_id "subscriber_id")
        (sanitize_identifier req.trader_id "trader_id")
        (sanitize_identifier req.clickid "clickid")).2.success = true)
    (hdup : 0 < duplicate_query_count db.transactions now req.id "ftm" none 30) :
    (ftm_core db now false req).status = "duplicate" ∧
    (ftm_core db now false req).db.transactions = db.transactions := by
  have hne : ¬((!(ensure_user_and_update_clickid db (some req.id)
      (sanitize_identifier req.subscriber_id "subscriber_id")
      (sanitize_identifier req.trader_id "trader_id")
      (sanitize_identifier req.clickid "clickid")).2.success) = true) := by
    simp [hsucc]
  have hchk : check_duplicate_transaction (runQuery false
      (duplicate_query_count (ensure_user_and_update_clickid db (some req.id)
        (sanitize_identifier req.subscriber_id "subscriber_id")
        (sanitize_identifier req.trader_id "trader_id")
        (sanitize_identifier req.clickid "clickid")).1.transactions
        now req.id "ftm" none 30)) = true := by
    rw [ensure_user_and_update_clickid_transactions]
    simp [runQuery, check_duplicate_transaction, hdup]
  unfold ftm_core
  dsimp only
  rw [if_neg hne, if_pos hchk]
  exact ⟨rfl, ensure_user_and_update_clickid_transactions db _ _ _ _⟩

theorem ftm_core_accepted (db : DB) (now : ℤ) (f : Bool) (req : FtmReq)
    (hsucc : (ensure_user_and_update_clickid db (some req.id)
        (sanitize_identifier req.subscriber_id "subscriber_id")
        (sanitize_identifier req.trader_id "trader_id")
        (sanitize_identifier req.clickid "clickid")).2.success = true)
    (hdup : check_duplicate_transaction (runQuery f
        (duplicate_query_count db.transactions now req.id "ftm" none 30)) = false) :
    (ftm_core db now f req).status = "ok" ∧
    (ftm_core db now f req).user_id = some req.id ∧
    (ftm_core db now f req).db.transactions =
      db.transactions ++ [⟨db.next_txn_id, req.id, "ftm", none, none, now⟩] := by
  have hne : ¬((!(ensure_user_and_update_clickid db (some req.id)
      (sanitize_identifier req.subscriber_id "subscriber_id")
      (sanitize_identifier req.trader_id "trader_id")
      (sanitize_identifier req.clickid "clickid")).2.success) = true) := by
    simp [hsucc]
  have hchk : ¬(check_duplicate_transaction (runQuery f
      (duplicate_query_count (ensure_user_and_update_clickid db (some req.id)
        (sanitize_identifier req.subscriber_id "subscriber_id")
        (sanitize_identifier req.trader_id "trader_id")
        (sanitize_identifier req.clickid "clickid")).1.transactions
        now req.id "ftm" none 30)) = true) := by
    rw [ensure_user_and_update_clickid_transactions]
    simp [hdup]
  unfold ftm_core
  dsimp only
  rw [if_neg hne, if_neg hchk]
  have hps := process_postback_shape (ensure_user_and_update_clickid db (some req.id)
      (sanitize_identifier req.subscriber_id "subscriber_id")
      (sanitize_identifier req.trader_id "trader_id")
      (sanitize_identifier req.clickid "clickid")).1 req.id "ftm" none none now
  rw [if_pos hps.1]
  refine ⟨rfl, rfl, ?_⟩
  dsimp only
  rw [hps.2, ensure_user_and_update_clickid_transactions,
    ensure_user_and_update_clickid_next_txn_id]

theorem reg_core_duplicate (db : DB) (now : ℤ) (req : FtmReq)
    (hsucc : (ensure_user_and_update_clickid db (some req.id)
        (sanitize_identifier req.subscriber_id "subscriber_id")
        (sanitize_identifier req.trader_id "trader_id")
        (sanitize_identifier req.clickid "clickid")).2.success = true)
    (hdup : 0 < duplicate_query_count db.transactions now req.id "reg" none 30) :
    (reg_core db now false req).status = "duplicate" ∧
    (reg_core db now false req).db.transactions = db.transactions := by
  have hne : ¬((!(ensure_user_and_update_clickid db (some req.id)
      (sanitize_identifier req.subscriber_id "subscriber_id")
      (sanitize_identifier req.trader_id "trader_id")
      (sanitize_identifier req.clickid "clickid")).2.success) = true) := by
    simp [hsucc]
  have hchk : check_duplicate_transaction (runQuery false
      (duplicate_query_count (ensure_user_and_update_clickid db (some req.id)
        (sanitize_identifier req.subscriber_id "subscriber_id")
        (sanitize_identifier req.trader_id "trader_id")
        (sanitize_identifier req.clickid "clickid")).1.transactions
        now req.id "reg" none 30)) = true := by
    rw [ensure_user_and_update_clickid_transactions]
    simp [runQuery, check_duplicate_transaction, hdup]
  unfold reg_core
  dsimp only
  rw [if_neg hne, if_pos hchk]
  exact ⟨rfl, ensure_user_and_update_clickid_transactions db _ _ _ _⟩

-- ==========================================================================
-- Rendering lemmas
-- ==========================================================================

theorem dep_render_status (o : CoreOut) (env : DispatchEnv) :
    (dep_render o env).status = o.status := by
  unfold dep_render
  split <;> rfl

theorem dep_render_tid (o : CoreOut) (env : DispatchEnv) :
    (dep_render o env).tid = o.tid := by
  unfold dep_render
  split <;> rfl

theorem dep_render_user_id (o : CoreOut) (env : DispatchEnv) :
    (dep_render o env).user_id = o.user_id := by
  unfold dep_render
  split <;> rfl

theorem withdraw_render_status (o : CoreOut) (env : DispatchEnv) :
    (withdraw_render o env).status = o.status := by
  unfold withdraw_render
  repeat' split
  all_goals rfl

theorem revenue_render_status (o : CoreOut) (env : DispatchEnv) :
    (revenue_render o env).status = o.status := by
  unfold revenue_render
  repeat' split
  all_goals rfl

theorem revenue_render_user_id (o : CoreOut) (env : DispatchEnv) :
    (revenue_render o env).user_id = o.user_id := by
  unfold revenue_render
  repeat' split
  all_goals rfl

theorem revenue_render_unchanged_skips (o : CoreOut) (env : DispatchEnv)
    (hok : o.status = "ok") (hch : o.revenue_changed = false) :
    (revenue_render o env).keitaro_attempted = false ∧
    (revenue_render o env).keitaro_postback = some (.skipped "skipped - same value") := by
  unfold revenue_render
  rw [if_pos hok, hch]
  exact ⟨rfl, rfl⟩

theorem dep_render_no_subid_skips (o : CoreOut) (env : DispatchEnv)
    (hok : o.status = "ok") (hsub : o.subid = none) :
    (dep_render o env).keitaro_postback = some (.skipped "skipped - no subid") := by
  unfold dep_render
  rw [if_pos hok, hsub]

theorem dep_render_no_clickid_skips (o : CoreOut) (env : DispatchEnv)
    (hok : o.status = "ok") (hclk : o.user_clickid = none) :
    (dep_render o env).chatterfy_postback = some (.skipped "skipped - no clickid") := by
  unfold dep_render
  rw [if_pos hok, hclk]

-- ==========================================================================
-- Supporting lemmas for the claim theorems
-- ==========================================================================

theorem fetch_retry_loop_all_pooled (env : ℕ → AttemptOutcome) (retries : ℕ) :
    ∀ (remaining attempt : ℕ) (trace : List ConnKind),
    trace.all (fun c => decide (c = ConnKind.pooled)) = true →
    ((fetch_retry_loop env ConnKind.pooled retries remaining attempt trace).2).all
      (fun c => decide (c = ConnKind.pooled)) = true := by
  intro remaining
  induction remaining with
  | zero => intro attempt trace h; simpa [fetch_retry_loop] using h
  | succ r ih =>
    intro attempt trace h
    unfold fetch_retry_loop
    cases env attempt with
    | httpOk text => simp [List.all_append, h]
    | httpErr st tx => exact ih (attempt + 1) (trace ++ [ConnKind.pooled]) (by simp [List.all_append, h])
    | timeout => exact ih (attempt + 1) (trace ++ [ConnKind.pooled]) (by simp [List.all_append, h])
    | clientError m => exact ih (attempt + 1) (trace ++ [ConnKind.pooled]) (by simp [List.all_append, h])
    | unknownError m => exact ih (attempt + 1) (trace ++ [ConnKind.pooled]) (by simp [List.all_append, h])

theorem dep_core_sum_congr (db : DB) (now : ℤ) (f : Bool) (req : DepReq) (a b : RawNum ℚ)
    (h : parse_sum_parameter a = parse_sum_parameter b) :
    dep_core db now f { req with sum := a } = dep_core db now f { req with sum := b } := by
  unfold dep_core
  dsimp only
  rw [h]

theorem redep_core_sum_congr (db : DB) (now : ℤ) (f : Bool) (req : DepReq) (a b : RawNum ℚ)
    (h : parse_sum_parameter a = parse_sum_parameter b) :
    redep_core db now f { req with sum := a } = redep_core db now f { req with sum := b } := by
  unfold redep_core
  dsimp only
  rw [h]

theorem withdraw_core_sum_congr (db : DB) (now : ℤ) (f : Bool) (req : DepReq) (a b : RawNum ℚ)
    (h : parse_sum_parameter a = parse_sum_parameter b) :
    withdraw_core db now f { req with sum := a } = withdraw_core db now f { req with sum := b } := by
  unfold withdraw_core
  dsimp only
  rw [h]

theorem parse_sum_nonpos_default (q : ℚ) (hq : q ≤ 0) :
    parse_sum_parameter (.val q) = parse_sum_parameter (.val DEFAULT_SUM) := by
  show (if q ≤ 0 then DEFAULT_SUM else q) = (if DEFAULT_SUM ≤ 0 then DEFAULT_SUM else DEFAULT_SUM)
  rw [if_pos hq, if_neg (by norm_num [DEFAULT_SUM])]

theorem sanitize_identifier_ne_empty (v : Option String) (p t : String)
    (h : sanitize_identifier v p = some t) : t ≠ "" := by
  unfold sanitize_identifier at h
  rcases v with _ | s
  · exact Option.noConfusion h
  · dsimp only at h
    intro ht
    split_ifs at h
    all_goals simp_all

theorem map_if_id_no_match (l : List User) (uid : ℤ) (g : User → User)
    (h : (l.any fun v => decide (v.id = uid)) = false) :
    (l.map fun u => if u.id = uid then g u else u) = l := by
  induction l with
  | nil => rfl
  | cons hd tl ih =>
    simp only [List.any_cons, Bool.or_eq_false_iff] at h
    have hne : hd.id ≠ uid := by
      intro he
      simp [he] at h
    simp [List.map_cons, if_neg hne, ih h.2]

theorem update_user_event_user_not_found (db : DB) (uid : ℤ) (action : String)
    (s : Option ℚ) (now : ℤ)
    (habs : (db.users.any fun v => decide (v.id = uid)) = false)
    (hmain : action = "ftm" ∨ action = "reg" ∨ action = "dep" ∨ action = "redep") :
    (update_user_event db uid action s now).2.success = false ∧
    (update_user_event db uid action s now).1.users = db.users := by
  unfold update_user_event
  rw [if_pos hmain]
  dsimp only
  rw [if_neg (by simp [habs])]
  refine ⟨rfl, ?_⟩
  show (db.users.map fun u => if u.id = uid then apply_user_event u action s now else u)
    = db.users
  exact map_if_id_no_match db.users uid _ habs

theorem create_transaction_users (db : DB) (uid : ℤ) (action : String)
    (s c : Option ℚ) (now : ℤ) :
    (create_transaction db uid action s c now).1.users = db.users := rfl

theorem get_user_revenue_update_clickid (db : DB) (x : ℤ) (c : String) (k : ℤ) :
    get_user_revenue (update_user_clickid db x c) k = get_user_revenue db k := by
  unfold get_user_revenue selectUserById update_user_clickid
  dsimp only
  rw [List.find?_map]
  have hp : ((fun (v : User) => decide (v.id = k)) ∘ fun (u : User) =>
      if u.id = x ∧ (u.clickid_chatterfry = none ∨ u.clickid_chatterfry = some "") then
        { u with clickid_chatterfry := some c } else u) =
      fun (v : User) => decide (v.id = k) := by
    funext v
    by_cases hv : v.id = x ∧ (v.clickid_chatterfry = none ∨ v.clickid_chatterfry = some "")
    · simp [Function.comp, hv]
    · simp [Function.comp, hv]
  rw [hp]
  cases db.users.find? fun v => decide (v.id = k) with
  | none => rfl
  | some w =>
    dsimp only [Option.map]
    split <;> rfl

theorem get_user_revenue_update_trader (db : DB) (x : ℤ) (t : String) (k : ℤ) :
    get_user_revenue (update_user_trader_id db x t).1 k = get_user_revenue db k := by
  unfold get_user_revenue selectUserById update_user_trader_id
  dsimp only
  rw [List.find?_map]
  have hp : ((fun (v : User) => decide (v.id = k)) ∘ fun (u : User) =>
      if u.id = x then { u with trader_id := some t } else u) =
      fun (v : User) => decide (v.id = k) := by
    funext v
    by_cases hv : v.id = x
    · simp [Function.comp, hv]
    · simp [Function.comp, hv]
  rw [hp]
  cases db.users.find? fun v => decide (v.id = k) with
  | none => rfl
  | some w =>
    dsimp only [Option.map]
    split <;> rfl

theorem get_user_revenue_update_trader_if_needed (db : DB) (x : ℤ) (t : Option String) (k : ℤ) :
    get_user_revenue (update_trader_id_if_needed db x t).1 k = get_user_revenue db k := by
  unfold update_trader_id_if_needed
  dsimp only
  repeat' split
  all_goals simp [get_user_revenue_update_trader]

theorem get_user_revenue_create_user (db : DB) (x : ℤ) (s t c : Option String) (k : ℤ) :
    get_user_revenue (create_user_if_not_exists db x s t c).1 k = get_user_revenue db k := by
  unfold create_user_if_not_exists
  cases selectUserById db x with
  | some w => rfl
  | none =>
    unfold get_user_revenue selectUserById
    dsimp only
    rw [List.find?_append]
    cases hf : db.users.find? fun v => decide (v.id = k) with
    | some w => rfl
    | none =>
      dsimp only [Option.or]
      by_cases hb : x = k
      · simp [blankUser, List.find?, hb]
      · simp [blankUser, List.find?, hb]

theorem get_user_revenue_ensure_exists (db : DB) (uid : Option ℤ) (s t c : Option String)
    (k : ℤ) :
    get_user_revenue (ensure_user_exists db uid s t c).1 k = get_user_revenue db k := by
  unfold ensure_user_exists
  cases find_user_by_any_identifier db uid s c t with
  | some f => rfl
  | none =>
    by_cases hu : truthyInt uid
    · simp [hu, get_user_revenue_create_user]
    · simp [hu]

theorem get_user_revenue_ensure_and_update (db : DB) (uid : Option ℤ)
    (s t c : Option String) (k : ℤ) :
    get_user_revenue (ensure_user_and_update_clickid db uid s t c).1 k =
      get_user_revenue db k := by
  unfold ensure_user_and_update_clickid
  dsimp only
  repeat' split
  all_goals
    simp [get_user_revenue_update_trader, get_user_revenue_update_clickid,
      get_user_revenue_ensure_exists]

theorem get_user_revenue_revenue_prepared (db : DB) (id : Option ℤ)
    (s c t : Option String) (k : ℤ) :
    get_user_revenue (revenue_prepared db id s c t).db k = get_user_revenue db k := by
  unfold revenue_prepared
  dsimp only
  repeat' split
  all_goals
    simp_all [get_user_revenue_update_trader_if_needed, get_user_revenue_update_clickid,
      get_user_revenue_ensure_and_update]

theorem users_any_id_update_clickid (db : DB) (x : ℤ) (c : String) (k : ℤ) :
    ((update_user_clickid db x c).users.any fun v => decide (v.id = k)) =
      (db.users.any fun v => decide (v.id = k)) := by
  unfold update_user_clickid
  dsimp only
  rw [List.any_map]
  congr 1
  funext (v : User)
  by_cases hv : v.id = x ∧ (v.clickid_chatterfry = none ∨ v.clickid_chatterfry = some "")
  · simp [Function.comp, hv]
  · simp [Function.comp, hv]

theorem users_any_id_update_trader (db : DB) (x : ℤ) (t : String) (k : ℤ) :
    ((update_user_trader_id db x t).1.users.any fun v => decide (v.id = k)) =
      (db.users.any fun v => decide (v.id = k)) := by
  unfold update_user_trader_id
  dsimp only
  rw [List.any_map]
  congr 1
  funext (v : User)
  by_cases hv : v.id = x
  · simp [Function.comp, hv]
  · simp [Function.comp, hv]

theorem users_any_id_update_trader_if_needed (db : DB) (x : ℤ) (t : Option String) (k : ℤ) :
    ((update_trader_id_if_needed db x t).1.users.any fun v => decide (v.id = k)) =
      (db.users.any fun v => decide (v.id = k)) := by
  unfold update_trader_id_if_needed
  dsimp only
  repeat' split
  all_goals simp [users_any_id_update_trader]

theorem users_any_id_create_user (db : DB) (x : ℤ) (s t c : Option String) (k : ℤ)
    (h : (db.users.any fun v => decide (v.id = k)) = true) :
    ((create_user_if_not_exists db x s t c).1.users.any fun v => decide (v.id = k)) = true := by
  unfold create_user_if_not_exists
  cases selectUserById db x with
  | some w => exact h
  | none =>
    dsimp only
    simp [List.any_append, h]

theorem users_any_id_ensure_exists (db : DB) (uid : Option ℤ) (s t c : Option String) (k : ℤ)
    (h : (db.users.any fun v => decide (v.id = k)) = true) :
    ((ensure_user_exists db uid s t c).1.users.any fun v => decide (v.id = k)) = true := by
  unfold ensure_user_exists
  cases find_user_by_any_identifier db uid s c t with
  | some f => exact h
  | none =>
    by_cases hu : truthyInt uid
    · simp [hu, users_any_id_create_user db _ s t c k h]
    · simp [hu, h]

theorem users_any_id_ensure_and_update (db : DB) (uid : Option ℤ) (s t c : Option String)
    (k : ℤ) (h : (db.users.any fun v => decide (v.id = k)) = true) :
    ((ensure_user_and_update_clickid db uid s t c).1.users.any fun v => decide (v.id = k))
      = true := by
  unfold ensure_user_and_update_clickid
  dsimp only
  repeat' split
  all_goals
    simp [users_any_id_update_trader, users_any_id_update_clickid,
      users_any_id_ensure_exists db uid s t c k h]

theorem users_any_id_revenue_prepared (db : DB) (id : Option ℤ) (s c t : Option String)
    (k : ℤ) (h : (db.users.any fun v => decide (v.id = k)) = true) :
    ((revenue_prepared db id s c t).db.users.any fun v => decide (v.id = k)) = true := by
  unfold revenue_prepared
  dsimp only
  repeat' split
  all_goals
    first
      | exact h
      | exact users_any_id_ensure_and_update db _ s t c k h
      | (rw [users_any_id_update_trader_if_needed, users_any_id_update_clickid]
         first
           | exact h
           | exact users_any_id_ensure_and_update db _ s t c k h)
      | (rw [users_any_id_update_trader_if_needed]
         first
           | exact h
           | exact users_any_id_ensure_and_update db _ s t c k h)
      | (rw [users_any_id_update_clickid]
         first
           | exact h
           | exact users_any_id_ensure_and_update db _ s t c k h)

theorem get_user_revenue_after_update (D : DB) (u : ℤ) (r : ℚ)
    (h : (D.users.any fun v => decide (v.id = u)) = true) :
    get_user_revenue (update_user_revenue D u r).1 u = some r := by
  unfold get_user_revenue selectUserById update_user_revenue
  dsimp only
  rw [List.find?_map]
  have hp : ((fun (v : User) => decide (v.id = u)) ∘ fun (w : User) =>
      if w.id = u then { w with revenue := some r } else w) =
      fun (v : User) => decide (v.id = u) := by
    funext v
    by_cases hv : v.id = u
    · simp [Function.comp, hv]
    · simp [Function.comp, hv]
  rw [hp]
  rcases hfind : D.users.find? fun v => decide (v.id = u) with _ | w
  · exfalso
    have hex : ∃ x ∈ D.users, decide (x.id = u) = true := by
      simpa [List.any_eq_true] using h
    obtain ⟨x, hx, hpx⟩ := hex
    have := List.find?_eq_none.mp hfind x hx
    exact this hpx
  · have hw : w.id = u := by simpa using List.find?_some hfind
    rw [hfind]
    simp [hw]

theorem get_user_revenue_update_other (D : DB) (u k : ℤ) (r : ℚ) (hne : k ≠ u) :
    get_user_revenue (update_user_revenue D u r).1 k = get_user_revenue D k := by
  unfold get_user_revenue selectUserById update_user_revenue
  dsimp only
  rw [List.find?_map]
  have hp : ((fun (v : User) => decide (v.id = k)) ∘ fun (w : User) =>
      if w.id = u then { w with revenue := some r } else w) =
      fun (v : User) => decide (v.id = k) := by
    funext v
    by_cases hv : v.id = u
    · simp [Function.comp, hv]
    · simp [Function.comp, hv]
  rw [hp]
  rcases hfind : D.users.find? fun v => decide (v.id = k) with _ | w
  · rw [hfind]
    rfl
  · have hw : w.id = k := by simpa using List.find?_some hfind
    rw [hfind]
    have hwu : ¬(w.id = u) := by
      rw [hw]
      exact hne
    simp [hwu]

theorem revenue_prepared_trader_hit (db : DB) (id : Option ℤ) (s c : Option String)
    (t : String) (A : User) (ht : t ≠ "") (hA : selectUserByTrader db t = some A) :
    (revenue_prepared db id s c (some t)).actual = some A.id := by
  have hts : truthyStr (some t) = true := by simp [truthyStr, ht]
  have hfind : find_user_by_any_identifier db none none none (some t) =
      some ⟨A.id, "trader_id"⟩ := by
    unfold find_user_by_any_identifier
    simp [truthyInt_none, truthyStr_none, hts, hA]
  unfold revenue_prepared
  dsimp only
  rw [hts, hfind]
  repeat' split
  all_goals simp_all

-- ==========================================================================
-- Claim theorems
-- ==========================================================================

/-- C2: for every combination of supplied identifiers,
find_user_by_any_identifier tries internal id, then subscriber id, then
click id, then trader id, and returns the user matched by the first
identifier that hits, never consulting the later identifiers once one
matched: a hit on an earlier identifier fixes the result for every value
of the later ones, and a later identifier is only reached when every
earlier one was absent or missed. -/
theorem c2_identifier_resolution_order (db : DB) :
    (∀ (uid : ℤ) (s c t : Option String) (u : User), uid ≠ 0 →
      selectUserById db uid = some u →
      find_user_by_any_identifier db (some uid) s c t = some ⟨u.id, "user_id"⟩) ∧
    (∀ (uidOpt : Option ℤ) (s : String) (c t : Option String) (u : User),
      (truthyInt uidOpt = false ∨ selectUserById db (uidOpt.getD 0) = none) →
      s ≠ "" → selectUserBySubscriber db s = some u →
      find_user_by_any_identifier db uidOpt (some s) c t = some ⟨u.id, "subscriber_id"⟩) ∧
    (∀ (uidOpt : Option ℤ) (sOpt : Option String) (c : String) (t : Option String) (u : User),
      (truthyInt uidOpt = false ∨ selectUserById db (uidOpt.getD 0) = none) →
      (truthyStr sOpt = false ∨ selectUserBySubscriber db (sOpt.getD "") = none) →
      c ≠ "" → selectUserByClickid db c = some u →
      find_user_by_any_identifier db uidOpt sOpt (some c) t = some ⟨u.id, "clickid_chatterfry"⟩) ∧
    (∀ (uidOpt : Option ℤ) (sOpt cOpt : Option String) (t : String) (u : User),
      (truthyInt uidOpt = false ∨ selectUserById db (uidOpt.getD 0) = none) →
      (truthyStr sOpt = false ∨ selectUserBySubscriber db (sOpt.getD "") = none) →
      (truthyStr cOpt = false ∨ selectUserByClickid db (cOpt.getD "") = none) →
      t ≠ "" → selectUserByTrader db t = some u →
      find_user_by_any_identifier db uidOpt sOpt cOpt (some t) = some ⟨u.id, "trader_id"⟩) := by
  refine ⟨?_, ?_, ?_, ?_⟩
  · intro uid s c t u h0 hsel
    unfold find_user_by_any_identifier
    simp [truthyInt, h0, hsel]
  · intro uidOpt s c t u hm hs hsel
    have hss : truthyStr (some s) = true := by simp [truthyStr, hs]
    unfold find_user_by_any_identifier
    rcases hm with h | h <;> simp [h, hss, hsel]
  · intro uidOpt sOpt c t u hm1 hm2 hc hsel
    have hcs : truthyStr (some c) = true := by simp [truthyStr, hc]
    unfold find_user_by_any_identifier
    rcases hm1 with h1 | h1 <;> rcases hm2 with h2 | h2 <;>
      simp [h1, h2, hcs, hsel]
  · intro uidOpt sOpt cOpt t u hm1 hm2 hm3 ht hsel
    have hts : truthyStr (some t) = true := by simp [truthyStr, ht]
    unfold find_user_by_any_identifier
    rcases hm1 with h1 | h1 <;> rcases hm2 with h2 | h2 <;> rcases hm3 with h3 | h3 <;>
      simp [h1, h2, h3, hts, hsel]

/-- C2 witness: on a concrete table holding a user whose internal id,
click id and trader id all differ, supplying every identifier resolves by
internal id, and supplying only the trader id resolves by trader id. -/
theorem c2_identifier_resolution_order_witness :
    find_user_by_any_identifier ⟨[fxUserTrader, fxUserB], [], 1⟩ (some 1)
      (some "nope") (some "nope") (some "t9") = some ⟨1, "user_id"⟩ ∧
    find_user_by_any_identifier ⟨[fxUserTrader, fxUserB], [], 1⟩ none none none
      (some "t9") = some ⟨1, "trader_id"⟩ := by
  constructor
  · exact (c2_identifier_resolution_order ⟨[fxUserTrader, fxUserB], [], 1⟩).1 1
      (some "nope") (some "nope") (some "t9") fxUserTrader (by decide) (by decide)
  · exact (c2_identifier_resolution_order ⟨[fxUserTrader, fxUserB], [], 1⟩).2.2.2 none none none
      "t9" fxUserTrader (Or.inl rfl) (Or.inl rfl) (Or.inl rfl) (by decide) (by decide)

/-- C8 counterexample: take the send whose first attempt times out with a
retry budget of 2 (the source default). The claim says the second attempt
must run on a freshly constructed single-use connection; in the code the
session is acquired once before the loop and reused, so the trace of
connections is pooled on both attempts. -/
theorem c8_fresh_connection_counterexample :
    (fetch_with_retry (fun _ => AttemptOutcome.timeout) 2).2 =
      [ConnKind.pooled, ConnKind.pooled] ∧ ConnKind.pooled ≠ ConnKind.fresh := by
  constructor
  · rfl
  · decide

/-- C8 (amended): every attempt of fetch_with_retry, retries included,
runs on the shared connection-pooled session obtained once from
get_http_session before the loop; no retry attempt constructs a fresh
single-use connection. -/
theorem c8_every_attempt_uses_pooled_session (env : ℕ → AttemptOutcome) (retries : ℕ) :
    ((fetch_with_retry env retries).2).all (fun c => decide (c = ConnKind.pooled)) = true := by
  unfold fetch_with_retry get_http_session
  exact fetch_retry_loop_all_pooled env retries retries 1 [] rfl

/-- C9: a non-numeric or non-positive `sum` is replaced by the fixed
default 59 for dep/redep/withdraw — parsing yields the default and each of
the three handlers behaves exactly as if 59 had been sent, rather than
rejecting — while the revenue parser preserves any numeric value, zero and
negative included, and the revenue endpoint rejects the request with an
error (leaving the database untouched) exactly when `sum` is missing or
non-numeric. -/
theorem c9_sum_parameter_policy :
    (∀ q : ℚ, q ≤ 0 → parse_sum_parameter (.val q) = DEFAULT_SUM) ∧
    (parse_sum_parameter .malformed = DEFAULT_SUM ∧ parse_sum_parameter .absent = DEFAULT_SUM) ∧
    (∀ (db : DB) (now : ℤ) (env : DispatchEnv) (f : Bool) (req : DepReq) (q : ℚ), q ≤ 0 →
      dep_postback db now env f { req with sum := .val q } =
        dep_postback db now env f { req with sum := .val DEFAULT_SUM } ∧
      redep_postback db now env f { req with sum := .val q } =
        redep_postback db now env f { req with sum := .val DEFAULT_SUM } ∧
      withdraw_postback db now env f { req with sum := .val q } =
        withdraw_postback db now env f { req with sum := .val DEFAULT_SUM }) ∧
    (∀ (db : DB) (now : ℤ) (env : DispatchEnv) (f : Bool) (req : DepReq),
      dep_postback db now env f { req with sum := .malformed } =
        dep_postback db now env f { req with sum := .val DEFAULT_SUM } ∧
      redep_postback db now env f { req with sum := .malformed } =
        redep_postback db now env f { req with sum := .val DEFAULT_SUM } ∧
      withdraw_postback db now env f { req with sum := .malformed } =
        withdraw_postback db now env f { req with sum := .val DEFAULT_SUM }) ∧
    (∀ q : ℚ, parse_revenue_parameter (.val q) = some q) ∧
    (∀ (db : DB) (now : ℤ) (env : DispatchEnv) (f : Bool) (req : DepReq),
      (req.sum = .absent ∨ req.sum = .malformed) →
      (revenue_postback db now env f req).2.status = "error" ∧
      (revenue_postback db now env f req).1 = db) := by
  have hmal : parse_sum_parameter (RawNum.malformed) = parse_sum_parameter (.val DEFAULT_SUM) := by
    show DEFAULT_SUM = (if DEFAULT_SUM ≤ 0 then DEFAULT_SUM else DEFAULT_SUM)
    rw [if_neg (by norm_num [DEFAULT_SUM])]
  refine ⟨?_, ⟨rfl, rfl⟩, ?_, ?_, ?_, ?_⟩
  · intro q hq
    show (if q ≤ 0 then DEFAULT_SUM else q) = DEFAULT_SUM
    rw [if_pos hq]
  · intro db now env f req q hq
    refine ⟨?_, ?_, ?_⟩
    · unfold dep_postback
      rw [dep_core_sum_congr db now f req _ _ (parse_sum_nonpos_default q hq)]
    · unfold redep_postback
      rw [redep_core_sum_congr db now f req _ _ (parse_sum_nonpos_default q hq)]
    · unfold withdraw_postback
      rw [withdraw_core_sum_congr db now f req _ _ (parse_sum_nonpos_default q hq)]
  · intro db now env f req
    refine ⟨?_, ?_, ?_⟩
    · unfold dep_postback
      rw [dep_core_sum_congr db now f req _ _ hmal]
    · unfold redep_postback
      rw [redep_core_sum_congr db now f req _ _ hmal]
    · unfold withdraw_postback
      rw [withdraw_core_sum_congr db now f req _ _ hmal]
  · intro q
    rfl
  · intro db now env f req h
    have hnone : parse_revenue_parameter req.sum = none := by
      rcases h with h | h <;> rw [h] <;> rfl
    constructor
    · show (revenue_render (revenue_core db now f req) env).status = "error"
      rw [revenue_render_status]
      unfold revenue_core
      rw [hnone]
      rfl
    · show (revenue_core db now f req).db = db
      unfold revenue_core
      rw [hnone]
      rfl

/-- C9 witness: at sum = -3 the deposit handler records the default 59, and
the revenue endpoint given a malformed sum errors out without touching a
concrete one-user database. -/
theorem c9_sum_parameter_policy_witness :
    parse_sum_parameter (.val (-3)) = DEFAULT_SUM ∧
    dep_postback ⟨[fxUserPlain], [], 1⟩ 0 fxEnvOK false { fxReqId 0 with sum := .val (-3) } =
      dep_postback ⟨[fxUserPlain], [], 1⟩ 0 fxEnvOK false { fxReqId 0 with sum := .val DEFAULT_SUM } ∧
    (revenue_postback ⟨[fxUserPlain], [], 1⟩ 0 fxEnvOK false { fxReqId 0 with sum := .malformed }).2.status = "error" := by
  refine ⟨c9_sum_parameter_policy.1 (-3) (by norm_num), ?_, ?_⟩
  · exact (c9_sum_parameter_policy.2.2.1 ⟨[fxUserPlain], [], 1⟩ 0 fxEnvOK false
      (fxReqId 0) (-3) (by norm_num)).1
  · exact (c9_sum_parameter_policy.2.2.2.2.2 ⟨[fxUserPlain], [], 1⟩ 0 fxEnvOK false
      { fxReqId 0 with sum := .malformed } (Or.inr rfl)).1

/-- C1: for every user and event kind, when a transaction of the same kind
(and, for the amount-bearing kinds, the same amount) is already in the log
for the user the handler resolved, inside the trailing dedupe window — 30
seconds for the no-amount kinds ftm and reg, 60 seconds for dep, redep,
withdraw and revenue — the handler answers status "duplicate" and inserts
no second transaction row. -/
theorem c1_duplicate_refused_within_window :
    (∀ (db : DB) (now : ℤ) (req : FtmReq),
      (ensure_user_and_update_clickid db (some req.id)
        (sanitize_identifier req.subscriber_id "subscriber_id")
        (sanitize_identifier req.trader_id "trader_id")
        (sanitize_identifier req.clickid "clickid")).2.success = true →
      0 < duplicate_query_count db.transactions now req.id "ftm" none 30 →
      (ftm_postback db now false req).2.status = "duplicate" ∧
      (ftm_postback db now false req).1.transactions = db.transactions) ∧
    (∀ (db : DB) (now : ℤ) (req : FtmReq),
      (ensure_user_and_update_clickid db (some req.id)
        (sanitize_identifier req.subscriber_id "subscriber_id")
        (sanitize_identifier req.trader_id "trader_id")
        (sanitize_identifier req.clickid "clickid")).2.success = true →
      0 < duplicate_query_count db.transactions now req.id "reg" none 30 →
      (reg_postback db now false req).2.status = "duplicate" ∧
      (reg_postback db now false req).1.transactions = db.transactions) ∧
    (∀ (db : DB) (now : ℤ) (env : DispatchEnv) (req : DepReq) (u : ℤ),
      (deposit_prepared db (parse_id_parameter req.id)
        (sanitize_identifier req.subscriber_id "subscriber_id")
        (sanitize_identifier req.clickid "clickid")
        (sanitize_identifier req.trader_id "trader_id")).actual = some u →
      0 < duplicate_query_count db.transactions now u "dep"
        (some (parse_sum_parameter req.sum)) 60 →
      (dep_postback db now env false req).2.status = "duplicate" ∧
      (dep_postback db now env false req).1.transactions = db.transactions) ∧
    (∀ (db : DB) (now : ℤ) (env : DispatchEnv) (req : DepReq) (u : ℤ),
      (deposit_prepared db (parse_id_parameter req.id)
        (sanitize_identifier req.subscriber_id "subscriber_id")
        (sanitize_identifier req.clickid "clickid")
        (sanitize_identifier req.trader_id "trader_id")).actual = some u →
      0 < duplicate_query_count db.transactions now u "redep"
        (some (parse_sum_parameter req.sum)) 60 →
      (redep_postback db now env false req).2.status = "duplicate" ∧
      (redep_postback db now env false req).1.transactions = db.transactions) ∧
    (∀ (db : DB) (now : ℤ) (env : DispatchEnv) (req : DepReq) (u : ℤ),
      (deposit_prepared db (parse_id_parameter req.id)
        (sanitize_identifier req.subscriber_id "subscriber_id")
        (sanitize_identifier req.clickid "clickid")
        (sanitize_identifier req.trader_id "trader_id")).actual = some u →
      0 < duplicate_query_count db.transactions now u "withdraw"
        (some (parse_sum_parameter req.sum)) 60 →
      (withdraw_postback db now env false req).2.status = "duplicate" ∧
      (withdraw_postback db now env false req).1.transactions = db.transactions) ∧
    (∀ (db : DB) (now : ℤ) (env : DispatchEnv) (req : DepReq) (u : ℤ) (r : ℚ),
      parse_revenue_parameter req.sum = some r →
      (revenue_prepared db (parse_id_parameter req.id)
        (sanitize_identifier req.subscriber_id "subscriber_id")
        (sanitize_identifier req.clickid "clickid")
        (sanitize_identifier req.trader_id "trader_id")).actual = some u →
      0 < duplicate_query_count db.transactions now u "revenue" (some r) 60 →
      (revenue_postback db now env false req).2.status = "duplicate" ∧
      (revenue_postback db now env false req).1.transactions = db.transactions) := by
  refine ⟨?_, ?_, ?_, ?_, ?_, ?_⟩
  · intro db now req hsucc hdup
    exact ftm_core_duplicate db now req hsucc hdup
  · intro db now req hsucc hdup
    exact reg_core_duplicate db now req hsucc hdup
  · intro db now env req u hres hdup
    have h := dep_core_duplicate db now req u hres hdup
    refine ⟨?_, h.2⟩
    show (dep_render (dep_core db now false req) env).status = "duplicate"
    rw [dep_render_status]
    exact h.1
  · intro db now env req u hres hdup
    have h := redep_core_duplicate db now req u hres hdup
    refine ⟨?_, h.2⟩
    show (dep_render (redep_core db now false req) env).status = "duplicate"
    rw [dep_render_status]
    exact h.1
  · intro db now env req u hres hdup
    have h := withdraw_core_duplicate db now req u hres hdup
    refine ⟨?_, h.2⟩
    show (withdraw_render (withdraw_core db now false req) env).status = "duplicate"
    rw [withdraw_render_status]
    exact h.1
  · intro db now env req u r hsum hres hdup
    have h := revenue_core_duplicate db now req u r hsum hres hdup
    refine ⟨?_, h.2⟩
    show (revenue_render (revenue_core db now false req) env).status = "duplicate"
    rw [revenue_render_status]
    exact h.1

/-- C1 witness: a deposit of 59 resubmitted for user 1 thirty seconds
after an identical row was recorded is answered "duplicate" and the
transactions log is left unchanged. -/
theorem c1_duplicate_refused_within_window_witness :
    (dep_postback ⟨[fxUserPlain], [⟨1, 1, "dep", some 59, none, 0⟩], 2⟩ 30 fxEnvOK false
      (fxReqId 59)).2.status = "duplicate" ∧
    (dep_postback ⟨[fxUserPlain], [⟨1, 1, "dep", some 59, none, 0⟩], 2⟩ 30 fxEnvOK false
      (fxReqId 59)).1.transactions = [⟨1, 1, "dep", some 59, none, 0⟩] :=
  c1_duplicate_refused_within_window.2.2.1 ⟨[fxUserPlain], [⟨1, 1, "dep", some 59, none, 0⟩], 2⟩
    30 fxEnvOK (fxReqId 59) 1 (by decide) (by decide)

/-- C3 counterexample: two concurrent dep requests for user 1, in a legal
interleaving where both pass the duplicate guard and both read the prior
deposit count before either insert commits, compute the same slot number 6
and are both inserted — the claimed "no gaps or repeats even under
concurrent submission" fails because no lock protects the count-then-insert
sequence. -/
theorem c3_concurrent_slot_collision_counterexample :
    (dep_concurrent_schedule ⟨[fxUserPlain], [], 1⟩ 1 59 none 0).map Prod.fst =
      some (6, 6) ∧
    (dep_concurrent_schedule ⟨[fxUserPlain], [], 1⟩ 1 59 none 0).map
      (fun r => r.2.transactions.length) = some 2 := by
  exact ⟨rfl, rfl⟩

/-- C3 (amended): the slot (tid) attached to an accepted dep or redep
equals the fixed base 6 plus the count of the user's prior deposit-class
transactions, read before the new row is inserted, and the accepted event
raises that count by exactly one — so over a sequence of sequentially
accepted deposit-class events for one user the slot increases by one with
no gaps or repeats. (The "even under concurrent submission" half of the
original claim does not hold: the count-then-insert sequence is not
atomic.) -/
theorem c3_deposit_slot_sequencing :
    (∀ (db : DB) (now : ℤ) (env : DispatchEnv) (f : Bool) (req : DepReq) (u : ℤ),
      (deposit_prepared db (parse_id_parameter req.id)
        (sanitize_identifier req.subscriber_id "subscriber_id")
        (sanitize_identifier req.clickid "clickid")
        (sanitize_identifier req.trader_id "trader_id")).actual = some u →
      check_duplicate_transaction (runQuery f
        (duplicate_query_count db.transactions now u "dep"
          (some (parse_sum_parameter req.sum)) 60)) = false →
      (dep_postback db now env f req).2.tid = some (6 + get_user_deposits_count db u) ∧
      get_user_deposits_count (dep_postback db now env f req).1 u =
        get_user_deposits_count db u + 1) ∧
    (∀ (db : DB) (now : ℤ) (env : DispatchEnv) (f : Bool) (req : DepReq) (u : ℤ),
      (deposit_prepared db (parse_id_parameter req.id)
        (sanitize_identifier req.subscriber_id "subscriber_id")
        (sanitize_identifier req.clickid "clickid")
        (sanitize_identifier req.trader_id "trader_id")).actual = some u →
      check_duplicate_transaction (runQuery f
        (duplicate_query_count db.transactions now u "redep"
          (some (parse_sum_parameter req.sum)) 60)) = false →
      (redep_postback db now env f req).2.tid = some (6 + get_user_deposits_count db u) ∧
      get_user_deposits_count (redep_postback db now env f req).1 u =
        get_user_deposits_count db u + 1) := by
  constructor
  · intro db now env f req u hres hdup
    have h := dep_core_accepted db now f req u hres hdup
    constructor
    · show (dep_render (dep_core db now f req) env).tid = _
      rw [dep_render_tid]
      exact h.2.2.1
    · show get_user_deposits_count (dep_core db now f req).db u = _
      unfold get_user_deposits_count
      rw [h.2.2.2, List.countP_append]
      simp
  · intro db now env f req u hres hdup
    have h := redep_core_accepted db now f req u hres hdup
    constructor
    · show (dep_render (redep_core db now f req) env).tid = _
      rw [dep_render_tid]
      exact h.2.2.1
    · show get_user_deposits_count (redep_core db now f req).db u = _
      unfold get_user_deposits_count
      rw [h.2.2.2, List.countP_append]
      simp

/-- C3 witness: a first accepted deposit for user 1 gets tid 6 and leaves
the user's deposit-class count at 1. -/
theorem c3_deposit_slot_sequencing_witness :
    (dep_postback ⟨[fxUserPlain], [], 1⟩ 0 fxEnvOK false (fxReqId 59)).2.tid = some 6 ∧
    get_user_deposits_count (dep_postback ⟨[fxUserPlain], [], 1⟩ 0 fxEnvOK false
      (fxReqId 59)).1 1 = 1 :=
  c3_deposit_slot_sequencing.1 ⟨[fxUserPlain], [], 1⟩ 0 fxEnvOK false (fxReqId 59) 1
    (by decide) (by decide)

/-- C4 counterexample: for a user with a subid and revenue unset,
submitting revenue 100, then 100 again (outside the dedupe window), then
150 triggers TWO downstream dispatches — on run 1 (unset to 100) and on
run 3 (100 to 150) — not exactly one as the claim states, because the
first stored value already differs from the unset previous revenue. -/
theorem c4_revenue_dispatch_count_counterexample :
    [fxRevRun1.2.keitaro_attempted, fxRevRun2.2.keitaro_attempted,
      fxRevRun3.2.keitaro_attempted] = [true, false, true] ∧
    [fxRevRun1.2.keitaro_attempted, fxRevRun2.2.keitaro_attempted,
      fxRevRun3.2.keitaro_attempted].count true = 2 := by
  exact ⟨rfl, rfl⟩

/-- C4 (amended): the 100 / 100 / 150 scenario stores revenue 100, then
100 again, then 150 (two distinct stored values) and dispatches downstream
exactly twice — on the change from unset to 100 and on the change to 150 —
while the repeated 100 is recorded as a transaction without any dispatch;
in general an accepted revenue event whose value equals the revenue stored
at the time of the handler's read is recorded in the transactions log and
its downstream dispatch is skipped entirely. -/
theorem c4_revenue_overwrite_and_suppression :
    (get_user_revenue fxRevRun1.1 1 = some 100 ∧
     get_user_revenue fxRevRun2.1 1 = some 100 ∧
     get_user_revenue fxRevRun3.1 1 = some 150 ∧
     fxRevRun2.1.transactions.length = 2 ∧
     [fxRevRun1.2.keitaro_attempted, fxRevRun2.2.keitaro_attempted,
       fxRevRun3.2.keitaro_attempted] = [true, false, true]) ∧
    (∀ (db : DB) (now : ℤ) (env : DispatchEnv) (req : DepReq) (u : ℤ) (r : ℚ),
      parse_revenue_parameter req.sum = some r →
      (revenue_prepared db (parse_id_parameter req.id)
        (sanitize_identifier req.subscriber_id "subscriber_id")
        (sanitize_identifier req.clickid "clickid")
        (sanitize_identifier req.trader_id "trader_id")).actual = some u →
      get_user_revenue (revenue_prepared db (parse_id_parameter req.id)
        (sanitize_identifier req.subscriber_id "subscriber_id")
        (sanitize_identifier req.clickid "clickid")
        (sanitize_identifier req.trader_id "trader_id")).db u = some r →
      duplicate_query_count db.transactions now u "revenue" (some r) 60 = 0 →
      (revenue_postback db now env false req).2.status = "ok" ∧
      (revenue_postback db now env false req).1.transactions =
        db.transactions ++ [⟨db.next_txn_id, u, "revenue", some r, none, now⟩] ∧
      (revenue_postback db now env false req).2.keitaro_attempted = false ∧
      (revenue_postback db now env false req).2.keitaro_postback =
        some (.skipped "skipped - same value")) := by
  constructor
  · exact ⟨rfl, rfl, rfl, rfl, rfl⟩
  · intro db now env req u r hsum hres hprev hnodup
    have h := revenue_core_accepted db now false req u r hsum hres
      (by simp [runQuery, check_duplicate_transaction, hnodup])
    have hch : (revenue_core db now false req).revenue_changed = false := by
      rw [h.2.2.2.2.1, hprev]
      simp
    have hsk := revenue_render_unchanged_skips (revenue_core db now false req) env h.1 hch
    refine ⟨?_, h.2.2.1, hsk.1, hsk.2⟩
    show (revenue_render (revenue_core db now false req) env).status = "ok"
    rw [revenue_render_status]
    exact h.1

/-- C4 witness: the second 100, submitted 100 seconds after the first
against the database produced by run 1, is accepted, recorded, and skips
the downstream dispatch. -/
theorem c4_revenue_overwrite_and_suppression_witness :
    (revenue_postback fxRevRun1.1 100 fxEnvOK false (fxReqId 100)).2.status = "ok" ∧
    (revenue_postback fxRevRun1.1 100 fxEnvOK false (fxReqId 100)).2.keitaro_attempted
      = false :=
  have h := c4_revenue_overwrite_and_suppression.2 fxRevRun1.1 100 fxEnvOK (fxReqId 100)
    1 100 rfl (by decide) (by decide) (by decide)
  ⟨h.1, h.2.2.1⟩

/-- C6 counterexample: recording a deposit for user 7 against an empty
users table inserts the transaction row and reports overall success (with
only the echoed user_updated flag false), instead of failing with a
user-not-found error and withholding the Event row as claimed. -/
theorem c6_missing_user_counterexample :
    (process_postback ⟨[], [], 1⟩ 7 "dep" (some 59) none 0).2 =
      ⟨true, some 1, some false⟩ ∧
    (process_postback ⟨[], [], 1⟩ 7 "dep" (some 59) none 0).1.transactions =
      [⟨1, 7, "dep", some 59, none, 0⟩] := by
  exact ⟨rfl, rfl⟩

/-- C6 (amended): process_postback appends the Event row and then updates
the User's funnel fields as two separately auto-committed statements, not
one logical transaction; when the User row no longer exists, for the four
user-mutating kinds, the Event row is still inserted, the call still
reports success, the users table is unchanged, and only the echoed
user_updated flag is false. -/
theorem c6_record_event_not_transactional (db : DB) (uid : ℤ) (action : String)
    (s c : Option ℚ) (now : ℤ)
    (habs : (db.users.any fun v => decide (v.id = uid)) = false)
    (hmain : action = "ftm" ∨ action = "reg" ∨ action = "dep" ∨ action = "redep") :
    (process_postback db uid action s c now).2.success = true ∧
    (process_postback db uid action s c now).1.transactions =
      db.transactions ++ [⟨db.next_txn_id, uid, action, s, c, now⟩] ∧
    (process_postback db uid action s c now).1.users = db.users ∧
    (process_postback db uid action s c now).2.user_updated = some false := by
  have hshape := process_postback_shape db uid action s c now
  have habs1 : ((create_transaction db uid action s c now).1.users.any
      fun v => decide (v.id = uid)) = false := habs
  have hupd := update_user_event_user_not_found (create_transaction db uid action s c now).1
    uid action s now habs1 hmain
  refine ⟨hshape.1, hshape.2, ?_, ?_⟩
  · show (update_user_event (create_transaction db uid action s c now).1 uid action s now).1.users
      = db.users
    rw [hupd.2]
    rfl
  · show some (update_user_event (create_transaction db uid action s c now).1
      uid action s now).2.success = some false
    rw [hupd.1]

/-- C6 witness: the amended statement evaluated at the empty users table:
success is reported, the row is appended, and user_updated is false. -/
theorem c6_record_event_not_transactional_witness :
    (process_postback ⟨[], [], 1⟩ 7 "dep" (some 59) none 0).2.success = true ∧
    (process_postback ⟨[], [], 1⟩ 7 "dep" (some 59) none 0).2.user_updated = some false :=
  have h := c6_record_event_not_transactional ⟨[], [], 1⟩ 7 "dep" (some 59) none 0
    (by decide) (Or.inr (Or.inr (Or.inl rfl)))
  ⟨h.1, h.2.2.2⟩

/-- C7: the dispatch fan-out isolates failures: (i) in
send_postbacks_parallel each target's reported outcome is a function of
that target's own coroutine outcome alone — a raised exception becomes the
per-target fallback failure dict and leaves the other target's report
untouched; (ii) a target with no usable identifier is reported with the
literal skip marker, not as a failure; (iii) no downstream outcome —
success, failure or raised exception — changes the stored database state
or the response status of the dep, redep, withdraw or revenue handler, so
a dispatch error never aborts the request. -/
theorem c7_dispatch_failure_isolation :
    (∀ c1 c2 : Option (Except String PBResult),
      (send_postbacks_parallel [("chatterfy", c1), ("keitaro", c2)]).lookup "keitaro" =
        c2.map settleOne ∧
      (send_postbacks_parallel [("chatterfy", c1), ("keitaro", c2)]).lookup "chatterfy" =
        c1.map settleOne) ∧
    (∀ (db : DB) (now : ℤ) (env : DispatchEnv) (f : Bool) (req : DepReq),
      ((dep_core db now f req).status = "ok" → (dep_core db now f req).subid = none →
        (dep_postback db now env f req).2.keitaro_postback =
          some (.skipped "skipped - no subid")) ∧
      ((dep_core db now f req).status = "ok" → (dep_core db now f req).user_clickid = none →
        (dep_postback db now env f req).2.chatterfy_postback =
          some (.skipped "skipped - no clickid"))) ∧
    (∀ (db : DB) (now : ℤ) (env1 env2 : DispatchEnv) (f : Bool) (req : DepReq),
      (dep_postback db now env1 f req).1 = (dep_postback db now env2 f req).1 ∧
      (dep_postback db now env1 f req).2.status = (dep_postback db now env2 f req).2.status ∧
      (redep_postback db now env1 f req).1 = (redep_postback db now env2 f req).1 ∧
      (redep_postback db now env1 f req).2.status =
        (redep_postback db now env2 f req).2.status ∧
      (withdraw_postback db now env1 f req).1 = (withdraw_postback db now env2 f req).1 ∧
      (withdraw_postback db now env1 f req).2.status =
        (withdraw_postback db now env2 f req).2.status ∧
      (revenue_postback db now env1 f req).1 = (revenue_postback db now env2 f req).1 ∧
      (revenue_postback db now env1 f req).2.status =
        (revenue_postback db now env2 f req).2.status) := by
  refine ⟨?_, ?_, ?_⟩
  · intro c1 c2
    rcases c1 with _ | c1v
    · rcases c2 with _ | c2v
      · exact ⟨rfl, rfl⟩
      · cases c2v <;> exact ⟨rfl, rfl⟩
    · rcases c2 with _ | c2v
      · cases c1v <;> exact ⟨rfl, rfl⟩
      · cases c1v <;> cases c2v <;> exact ⟨rfl, rfl⟩
  · intro db now env f req
    constructor
    · intro hok hsub
      exact dep_render_no_subid_skips (dep_core db now f req) env hok hsub
    · intro hok hclk
      exact dep_render_no_clickid_skips (dep_core db now f req) env hok hclk
  · intro db now env1 env2 f req
    refine ⟨rfl, ?_, rfl, ?_, rfl, ?_, rfl, ?_⟩
    · show (dep_render (dep_core db now f req) env1).status =
        (dep_render (dep_core db now f req) env2).status
      rw [dep_render_status, dep_render_status]
    · show (dep_render (redep_core db now f req) env1).status =
        (dep_render (redep_core db now f req) env2).status
      rw [dep_render_status, dep_render_status]
    · show (withdraw_render (withdraw_core db now f req) env1).status =
        (withdraw_render (withdraw_core db now f req) env2).status
      rw [withdraw_render_status, withdraw_render_status]
    · show (revenue_render (revenue_core db now f req) env1).status =
        (revenue_render (revenue_core db now f req) env2).status
      rw [revenue_render_status, revenue_render_status]

/-- C7 witness: an accepted deposit for a user with no keitaro subid, run
against an environment whose keitaro coroutine raises, still reports the
keitaro target as the literal skip marker. -/
theorem c7_dispatch_failure_isolation_witness :
    (dep_postback ⟨[fxUserPlain], [], 1⟩ 0 fxEnvBoom false (fxReqId 59)).2.keitaro_postback =
      some (.skipped "skipped - no subid") :=
  (c7_dispatch_failure_isolation.2.1 ⟨[fxUserPlain], [], 1⟩ 0 fxEnvBoom false
    (fxReqId 59)).1 (by decide) (by decide)

/-- C10: an exception from the dedupe query makes
check_duplicate_transaction report "no duplicate", and the handler then
proceeds: with a faulty dedupe connection the dep handler accepts a
request even though an identical transaction is already inside the window,
appending a second identical row. -/
theorem c10_dedupe_failure_open :
    (∀ e : String, check_duplicate_transaction (.error e) = false) ∧
    (∀ (db : DB) (now : ℤ) (env : DispatchEnv) (req : DepReq) (u : ℤ),
      (deposit_prepared db (parse_id_parameter req.id)
        (sanitize_identifier req.subscriber_id "subscriber_id")
        (sanitize_identifier req.clickid "clickid")
        (sanitize_identifier req.trader_id "trader_id")).actual = some u →
      0 < duplicate_query_count db.transactions now u "dep"
        (some (parse_sum_parameter req.sum)) 60 →
      (dep_postback db now env true req).2.status = "ok" ∧
      (dep_postback db now env true req).1.transactions =
        db.transactions ++ [⟨db.next_txn_id, u, "dep", some (parse_sum_parameter req.sum),
          parse_commission_parameter req.commission, now⟩]) := by
  constructor
  · intro e
    rfl
  · intro db now env req u hres _hdup
    have h := dep_core_accepted db now true req u hres rfl
    constructor
    · show (dep_render (dep_core db now true req) env).status = "ok"
      rw [dep_render_status]
      exact h.1
    · exact h.2.2.2

/-- C10 witness: with the dedupe query failing, the same deposit that
c1's witness refuses as a duplicate is accepted and recorded a second
time. -/
theorem c10_dedupe_failure_open_witness :
    (dep_postback ⟨[fxUserPlain], [⟨1, 1, "dep", some 59, none, 0⟩], 2⟩ 30 fxEnvOK true
      (fxReqId 59)).2.status = "ok" ∧
    (dep_postback ⟨[fxUserPlain], [⟨1, 1, "dep", some 59, none, 0⟩], 2⟩ 30 fxEnvOK true
      (fxReqId 59)).1.transactions =
      [⟨1, 1, "dep", some 59, none, 0⟩, ⟨2, 1, "dep", some 59, none, 30⟩] := by
  have h := c10_dedupe_failure_open.2 ⟨[fxUserPlain], [⟨1, 1, "dep", some 59, none, 0⟩], 2⟩
    30 fxEnvOK (fxReqId 59) 1 (by decide) (by decide)
  refine ⟨h.1, ?_⟩
  rw [h.2]
  rfl

/-- C5: on a revenue event that supplies both a trader id and an internal
id resolving to different users, the event is applied to the trader-id
user: the response names the trader-id user, that user's stored revenue
becomes the submitted value, and the internal-id user's stored revenue is
untouched. -/
theorem c5_revenue_trader_id_priority (db : DB) (now : ℤ) (env : DispatchEnv)
    (req : DepReq) (t : String) (A B : User) (i : ℤ) (r : ℚ)
    (htr : sanitize_identifier req.trader_id "trader_id" = some t)
    (hA : selectUserByTrader db t = some A)
    (_hid : parse_id_parameter req.id = some i)
    (_hB : selectUserById db i = some B)
    (hne : A.id ≠ B.id)
    (hsum : parse_revenue_parameter req.sum = some r)
    (hnodup : duplicate_query_count db.transactions now A.id "revenue" (some r) 60 = 0) :
    (revenue_postback db now env false req).2.user_id = some A.id ∧
    get_user_revenue (revenue_postback db now env false req).1 A.id = some r ∧
    get_user_revenue (revenue_postback db now env false req).1 B.id =
      get_user_revenue db B.id := by
  have ht : t ≠ "" := sanitize_identifier_ne_empty req.trader_id "trader_id" t htr
  have hres : (revenue_prepared db (parse_id_parameter req.id)
      (sanitize_identifier req.subscriber_id "subscriber_id")
      (sanitize_identifier req.clickid "clickid")
      (sanitize_identifier req.trader_id "trader_id")).actual = some A.id := by
    rw [htr]
    exact revenue_prepared_trader_hit db _ _ _ t A ht hA
  have h := revenue_core_accepted db now false req A.id r hsum hres
    (by simp [runQuery, check_duplicate_transaction, hnodup])
  have hdb := h.2.2.2.2.2
  have hmem : (db.users.any fun v => decide (v.id = A.id)) = true := by
    have hAmem : A ∈ db.users := List.mem_of_find?_eq_some hA
    exact List.any_eq_true.mpr ⟨A, hAmem, by simp⟩
  have hmem2 : ((revenue_prepared db (parse_id_parameter req.id)
      (sanitize_identifier req.subscriber_id "subscriber_id")
      (sanitize_identifier req.clickid "clickid")
      (sanitize_identifier req.trader_id "trader_id")).db.users.any
        fun v => decide (v.id = A.id)) = true :=
    users_any_id_revenue_prepared db _ _ _ _ A.id hmem
  refine ⟨?_, ?_, ?_⟩
  · show (revenue_render (revenue_core db now false req) env).user_id = some A.id
    rw [revenue_render_user_id]
    exact h.2.1
  · show get_user_revenue (revenue_core db now false req).db A.id = some r
    rw [hdb]
    exact get_user_revenue_after_update _ A.id r hmem2
  · show get_user_revenue (revenue_core db now false req).db B.id = get_user_revenue db B.id
    rw [hdb]
    rw [get_user_revenue_update_other _ A.id B.id r (Ne.symm hne)]
    exact get_user_revenue_revenue_prepared db _ _ _ _ B.id

/-- C5 witness: trader id t9 resolves to user 1 while the supplied internal
id resolves to user 2; the revenue 100 lands on user 1 and user 2's stored
revenue stays 7. -/
theorem c5_revenue_trader_id_priority_witness :
    (revenue_postback ⟨[fxUserTrader, fxUserB], [], 1⟩ 0 fxEnvOK false
      fxReqTrader).2.user_id = some 1 ∧
    get_user_revenue (revenue_postback ⟨[fxUserTrader, fxUserB], [], 1⟩ 0 fxEnvOK false
      fxReqTrader).1 1 = some 100 ∧
    get_user_revenue (revenue_postback ⟨[fxUserTrader, fxUserB], [], 1⟩ 0 fxEnvOK false
      fxReqTrader).1 2 = some 7 := by
  have h := c5_revenue_trader_id_priority ⟨[fxUserTrader, fxUserB], [], 1⟩ 0 fxEnvOK
    fxReqTrader "t9" fxUserTrader fxUserB 2 100 (by decide) (by decide) (by decide)
    (by decide) (by decide) rfl (by decide)
  exact ⟨h.1, h.2.1, h.2.2.trans rfl⟩

end MvpPostback
